import Mathlib

/-!
Verification of the statistics/performance-calculation engine of the archives
dashboard (`traitement_ph.py`).  The Python source is shallowly embedded:

* real (float) arithmetic is modelled by exact rationals `ℚ`;
* Python's `/`, which raises `ZeroDivisionError` on a zero denominator, is
  modelled by `pyDiv : ℚ → ℚ → Option ℚ`; consequently every computation that
  performs an unguarded division returns an `Option`;
* Python's `int(x)` on a float (truncation toward zero) is `pyInt`;
* Python's `round(x, n)` (round half to even) is `roundTo n`;
* calendar dates are handled through their proleptic-Gregorian ordinal (day
  number, with 0001-01-01 = day 0, so `ord % 7 = 0` means Monday, exactly as
  Python's `date.weekday()`);
* the SQLite store is a Lean structure `DB`; the `SELECT`-based accessors
  return the queried data together with the (unchanged) database state, and
  date-range filters compare ISO date strings byte-wise as SQLite does.
-/

/-! ## Python-style numeric primitives

The standard `Rat` arithmetic operations of the library are `@[irreducible]`,
which keeps concrete runs of the embedded engine from being checked by
`decide`; so the embedding computes with `qMul`/`qDiv`/`qSub`, defined from
the reducible `Rat.divInt`, and the lemmas `qMul_eq`/`qDiv_eq`/`qSub_eq`
identify them with the field operations of `ℚ` for symbolic reasoning. -/

/-- Multiplication on `ℚ` through `Rat.divInt` (kernel-reducible). -/
def qMul (a b : ℚ) : ℚ := Rat.divInt (a.num * b.num) ((a.den : ℤ) * (b.den : ℤ))

/-- Division on `ℚ` through `Rat.divInt` (kernel-reducible). -/
def qDiv (a b : ℚ) : ℚ := Rat.divInt (a.num * (b.den : ℤ)) ((a.den : ℤ) * b.num)

/-- Subtraction on `ℚ` through `Rat.divInt` (kernel-reducible). -/
def qSub (a b : ℚ) : ℚ :=
  Rat.divInt (a.num * (b.den : ℤ) - b.num * (a.den : ℤ)) ((a.den : ℤ) * (b.den : ℤ))

/-- One half, in reducible form. -/
def demi : ℚ := Rat.divInt 1 2

/-- Python true division `a / b`: raises (here: `none`) when `b = 0`. -/
def pyDiv (a b : ℚ) : Option ℚ := if b = 0 then none else some (qDiv a b)

/-- Python `int(x)` applied to a real value: truncation toward zero. -/
def pyInt (q : ℚ) : ℤ := if 0 ≤ q then ⌊q⌋ else ⌈q⌉

/-- Round to the nearest integer, ties to even (Python's `round`). -/
def halfEven (q : ℚ) : ℤ :=
  let f := ⌊q⌋
  if qSub q (f : ℚ) < demi then f
  else if demi < qSub q (f : ℚ) then f + 1
  else if f % 2 = 0 then f else f + 1

/-- Python `round(q, n)`: round to `n` decimal places, ties to even. -/
def roundTo (n : ℕ) (q : ℚ) : ℚ :=
  qDiv (halfEven (qMul q ((10 ^ n : ℕ) : ℚ)) : ℚ) ((10 ^ n : ℕ) : ℚ)

/-! ## Byte-wise string comparison (SQLite `BLOB`/text ordering on ASCII) -/

/-- Lexicographic comparison of character lists by code point. -/
def strLe : List Char → List Char → Bool
  | [], _ => true
  | _ :: _, [] => false
  | a :: as, b :: bs =>
      if a.toNat < b.toNat then true
      else if b.toNat < a.toNat then false
      else strLe as bs

/-- String comparison used by the SQLite date-range filters. -/
def sqlLe (a b : String) : Bool := strLe a.data b.data

/-! ## Calendar: proleptic Gregorian dates as day ordinals -/

/-- Gregorian leap-year test. -/
def isLeap (y : ℕ) : Bool := y % 4 = 0 && (y % 100 != 0 || y % 400 = 0)

/-- Number of days of month `m` in year `y`. -/
def daysInMonth (y m : ℕ) : ℕ :=
  if m = 2 then (if isLeap y then 29 else 28)
  else if m = 4 ∨ m = 6 ∨ m = 9 ∨ m = 11 then 30
  else 31

/-- Day ordinal of the date `y-m-d` (0001-01-01 = day 0), for `1 ≤ y`. -/
def toOrd (y m d : ℕ) : ℕ :=
  let yA := if m ≤ 2 then y - 1 else y
  let era := yA / 400
  let yoe := yA % 400
  let mp := if 2 < m then m - 3 else m + 9
  let doy := (153 * mp + 2) / 5 + d - 1
  let doe := yoe * 365 + yoe / 4 - yoe / 100 + doy
  era * 146097 + doe - 306

/-- Inverse of `toOrd`: year, month and day of a day ordinal. -/
def fromOrd (o : ℕ) : ℕ × ℕ × ℕ :=
  let z := o + 306
  let era := z / 146097
  let doe := z % 146097
  let yoe := (doe - doe / 1460 + doe / 36524 - doe / 146097) / 365
  let yA := yoe + era * 400
  let doy := doe - (365 * yoe + yoe / 4 - yoe / 100)
  let mp := (5 * doy + 2) / 153
  let d := doy - (153 * mp + 2) / 5 + 1
  let m := if mp < 10 then mp + 3 else mp - 9
  (if m ≤ 2 then yA + 1 else yA, m, d)

/-- Decimal digit character. -/
def digitChar (n : ℕ) : Char := Char.ofNat (48 + n)

/-- Two-digit zero-padded decimal rendering. -/
def pad2 (n : ℕ) : List Char := [digitChar (n / 10 % 10), digitChar (n % 10)]

/-- Four-digit zero-padded decimal rendering. -/
def pad4 (n : ℕ) : List Char :=
  [digitChar (n / 1000 % 10), digitChar (n / 100 % 10),
   digitChar (n / 10 % 10), digitChar (n % 10)]

/-- `strftime("%Y-%m-%d")` for the date `y-m-d`. -/
def isoYMD (y m d : ℕ) : String :=
  String.mk (pad4 y ++ '-' :: pad2 m ++ '-' :: pad2 d)

/-- `strftime("%Y-%m-%d")` for a day ordinal. -/
def isoOfOrd (o : ℕ) : String :=
  isoYMD (fromOrd o).1 (fromOrd o).2.1 (fromOrd o).2.2

/-- `strftime("%d/%m")` for a day ordinal. -/
def ddmm (o : ℕ) : List Char :=
  pad2 (fromOrd o).2.2 ++ '/' :: pad2 (fromOrd o).2.1

/-- `strftime("%d/%m/%Y")` for a day ordinal. -/
def ddmmyyyy (o : ℕ) : List Char :=
  pad2 (fromOrd o).2.2 ++ '/' :: pad2 (fromOrd o).2.1 ++ '/' :: pad4 (fromOrd o).1

/-- The label `"%d/%m - %d/%m/%Y"` built by the weekly computations. -/
def semaineLabel (a b : ℕ) : String :=
  String.mk (ddmm a ++ ' ' :: '-' :: ' ' :: ddmmyyyy b)

/-! ## Date-string parsing (`datetime.strptime(s, "%Y-%m-%d")`) -/

/-- Value of a decimal digit character, if it is one. -/
def digitVal (c : Char) : Option ℕ :=
  if 48 ≤ c.toNat ∧ c.toNat ≤ 57 then some (c.toNat - 48) else none

/-- Reads an all-digit character list as a number; fails on a non-digit. -/
def digitsVal : List Char → ℕ → Option ℕ
  | [], acc => some acc
  | c :: cs, acc =>
      match digitVal c with
      | none => none
      | some d => digitsVal cs (acc * 10 + d)

/-- A numeric `strptime` field of at most `maxLen` digits. -/
def numField (cs : List Char) (maxLen : ℕ) : Option ℕ :=
  if cs.length = 0 ∨ maxLen < cs.length then none else digitsVal cs 0

/-- Splits a character list at every `'-'`. -/
def splitDashAux : List Char → List Char → List (List Char)
  | [], acc => [acc.reverse]
  | c :: cs, acc =>
      if c = '-' then acc.reverse :: splitDashAux cs []
      else splitDashAux cs (c :: acc)

/-- Model of `datetime.strptime(s, "%Y-%m-%d").date()`, returning the day
ordinal of the parsed date, or `none` on any parse or validity failure. -/
def parseDate (s : String) : Option ℕ :=
  match splitDashAux s.data [] with
  | [ys, ms, ds] =>
      match numField ys 4, numField ms 2, numField ds 2 with
      | some y, some m, some d =>
          if 1 ≤ y ∧ y ≤ 9999 ∧ 1 ≤ m ∧ m ≤ 12 ∧ 1 ≤ d ∧ d ≤ daysInMonth y m
          then some (toOrd y m d) else none
      | _, _, _ => none
  | _ => none

/-! ## Data model and record store -/

/-- One row of the `traitements` table (fields relevant to statistics;
`id`, `commentaire` and `date_creation` play no role in any computation). -/
structure Traitement where
  date_traitement : String
  archiviste : String
  dossiers_traites : ℕ
deriving DecidableEq

/-- The configuration parameters read by the statistics engine, already
interpreted (`int(...)` / `float(...)`) from their stored text form. -/
structure Parametres where
  stock_initial : ℤ
  objectif_journalier : ℤ
  seuil_objectif : ℚ
deriving DecidableEq

/-- The record-store state seen by the statistics engine. -/
structure DB where
  traitements : List Traitement
  parametres : Parametres
deriving DecidableEq

/-- Sort key of `obtenir_traitements` (`ORDER BY date_traitement DESC`). -/
def dateDesc (t u : Traitement) : Bool := sqlLe u.date_traitement t.date_traitement

/-- Stable insertion into a sorted list (used to model stable sorting:
SQLite's `ORDER BY` on this data and Python's `list.sort`). -/
def insertD {α : Type} (le : α → α → Bool) (x : α) : List α → List α
  | [] => [x]
  | y :: ys => if le x y then x :: y :: ys else y :: insertD le x ys

/-- Stable insertion sort; extensionally equal to any stable sort by `le`. -/
def sortD {α : Type} (le : α → α → Bool) (l : List α) : List α :=
  l.foldr (insertD le) []

/-- `DatabaseManager.obtenir_traitements`: a `SELECT` with optional
`date_traitement >= d1` / `<= d2` bounds (SQLite compares the stored text
byte-wise) ordered by date descending.  Being a query, it returns the state
unchanged. -/
def obtenir_traitements (db : DB) (d1 d2 : Option String) : List Traitement × DB :=
  (sortD dateDesc (db.traitements.filter (fun t =>
      (match d1 with | none => true | some a => sqlLe a t.date_traitement) &&
      (match d2 with | none => true | some b => sqlLe t.date_traitement b))), db)

/-- Reading the `stock_initial` parameter (a `SELECT`). -/
def lire_stock (db : DB) : ℤ × DB := (db.parametres.stock_initial, db)

/-- Reading the `objectif_journalier` parameter (a `SELECT`). -/
def lire_objectif (db : DB) : ℤ × DB := (db.parametres.objectif_journalier, db)

/-- Reading the `seuil_objectif` parameter (a `SELECT`). -/
def lire_seuil (db : DB) : ℚ × DB := (db.parametres.seuil_objectif, db)

/-- `DatabaseManager.ajouter_traitement`: an `INSERT`, which does change the
store state (showing the state space is genuinely mutable). -/
def ajouter_traitement (db : DB) (t : Traitement) : DB :=
  { db with traitements := db.traitements ++ [t] }

/-- `DatabaseManager.reinitialiser_donnees`: `DELETE FROM traitements`. -/
def reinitialiser_donnees (db : DB) : DB := { db with traitements := [] }

/-! ## List helpers mirroring the Python loops -/

/-- Sum of `dossiers_traites` over a list of rows
(`sum(t['dossiers_traites'] for t in traitements)`). -/
def sommeDossiers (l : List Traitement) : ℕ :=
  (l.map (fun t => t.dossiers_traites)).sum

/-- First-occurrence deduplication with an accumulator of seen keys; the key
iteration order of a Python `dict` built by `setdefault` in a loop. -/
def firstDedupAux : List String → List String → List String
  | [], _ => []
  | a :: l, seen =>
      if a ∈ seen then firstDedupAux l seen
      else a :: firstDedupAux l (a :: seen)

/-- Keys of the `stats` dict in first-occurrence order. -/
def firstDedup (l : List String) : List String := firstDedupAux l []

/-- Builds the result list of a Python `for` loop that appends one record per
key, failing (`none`) as soon as one iteration raises. -/
def collecte {α β : Type} (f : α → Option β) : List α → Option (List β)
  | [] => some []
  | a :: l => do
      let b ← f a
      let bs ← collecte f l
      pure (b :: bs)

/-- Accumulator loop of `StatisticsCalculator._jours_ouvres`: each parsable
date string whose weekday is Monday–Friday is added to a set. -/
def joursOuvresAux : List String → List ℕ → List ℕ
  | [], jours => jours
  | s :: rest, jours =>
      match parseDate s with
      | none => joursOuvresAux rest jours
      | some o =>
          if o % 7 < 5 then joursOuvresAux rest (jours.insert o)
          else joursOuvresAux rest jours

/-- `StatisticsCalculator._jours_ouvres`: the number of distinct working days
among a list of date strings, skipping malformed entries. -/
def joursOuvres (dates : List String) : ℕ := (joursOuvresAux dates []).length

/-- `StatisticsCalculator._calculer_jours_ouvres_annee`: iterates every date
from Jan 1 to Dec 31 of `annee` and counts the working days. -/
def joursOuvresAnnee (annee : ℕ) : ℕ :=
  ((List.range (toOrd annee 12 31 + 1 - toOrd annee 1 1)).filter
    (fun i => decide ((toOrd annee 1 1 + i) % 7 < 5))).length

/-! ## Result records of the statistics engine -/

/-- Result of `calculer_kpis_globaux`. -/
structure Kpis where
  stock_initial : ℤ
  dossiers_traites : ℕ
  stock_restant : ℤ
  pourcentage_traite : ℚ
deriving DecidableEq

/-- Result of `calculer_performances_journalieres`. -/
structure PerfJour where
  date : ℕ
  dossiers_traites : ℕ
  objectif : ℤ
  seuil_reussite : ℤ
  taux_realisation : ℚ
  objectif_atteint : Bool
  ecart : ℤ
deriving DecidableEq

/-- Result of `calculer_performances_hebdomadaires`. -/
structure PerfHebdo where
  semaine : String
  dossiers_traites : ℕ
  objectif : ℤ
  seuil_reussite : ℤ
  taux_realisation : ℚ
  objectif_atteint : Bool
deriving DecidableEq

/-- One element of the list returned by
`obtenir_performances_hebdo_par_archiviste`. -/
structure ArchHebdo where
  archiviste : String
  total_dossiers : ℕ
  jours_travailles : ℕ
  moyenne_jour : ℚ
  taux_hebdo : ℚ
  objectif_hebdo : ℤ
  seuil_reussite : ℤ
  statut : String
deriving DecidableEq

/-- One element of the list returned by
`obtenir_performances_30j_par_archiviste`. -/
structure Arch30 where
  archiviste : String
  total_dossiers : ℕ
  jours_travailles : ℕ
  moyenne_jour : ℚ
  taux_objectif : ℚ
  seuil_journalier : ℤ
  statut : String
deriving DecidableEq

/-- One element of the list returned by
`obtenir_performances_annuelles_par_archiviste`. -/
structure ArchAnnuel where
  archiviste : String
  total_dossiers : ℕ
  jours_travailles : ℕ
  moyenne_jour : ℚ
  taux_objectif : ℚ
  couverture_annee : ℚ
  seuil_journalier : ℤ
  statut : String
  annee : ℕ
deriving DecidableEq

/-! ## Per-archivist loop bodies

The three per-archivist functions run the same `for arch, dates in
stats.items()` loop; each iteration is embedded as a `fiche…` function of the
fetched rows `tr` and the archivist key `arch`. -/

/-- Rows of archivist `arch` among the fetched rows `tr`. -/
def lignesDe (tr : List Traitement) (arch : String) : List Traitement :=
  tr.filter (fun t => t.archiviste == arch)

/-- `total` of the per-archivist loops. -/
def ficheTotal (tr : List Traitement) (arch : String) : ℕ :=
  sommeDossiers (lignesDe tr arch)

/-- `jours_ouvres` of the per-archivist loops (`stats[arch]` is exactly the
list of `date_traitement` values of that archivist's rows, in fetch order). -/
def ficheJours (tr : List Traitement) (arch : String) : ℕ :=
  joursOuvres ((lignesDe tr arch).map (fun t => t.date_traitement))

/-- `moy` / `moyenne_jour` of the per-archivist loops: daily average with the
explicit zero-days guard. -/
def ficheMoy (tr : List Traitement) (arch : String) : ℚ :=
  if 0 < ficheJours tr arch
  then qDiv (ficheTotal tr arch : ℚ) (ficheJours tr arch : ℚ) else 0

/-- Loop body of `obtenir_performances_hebdo_par_archiviste` (attainment on
the weekly total, three status tiers). -/
def ficheHebdo (objectif : ℤ) (so : ℚ) (tr : List Traitement) (arch : String) :
    Option ArchHebdo :=
  let objectif_hebdo := objectif * 5
  let seuil_hebdo : ℚ := qMul (objectif_hebdo : ℚ) so
  let total := ficheTotal tr arch
  do
    let (taux, statut) ←
      if seuil_hebdo ≤ (total : ℚ) then do
        let q ← pyDiv (total : ℚ) (objectif_hebdo : ℚ)
        pure (qMul q 100, "🟢 Objectif atteint")
      else do
        let q ← pyDiv (total : ℚ) seuil_hebdo
        pure (qMul q 90,
          if 80 ≤ qMul q 90 then "🟡 Proche objectif" else "🔴 En retard")
    pure { archiviste := arch, total_dossiers := total,
           jours_travailles := ficheJours tr arch,
           moyenne_jour := roundTo 1 (ficheMoy tr arch),
           taux_hebdo := roundTo 1 taux,
           objectif_hebdo := objectif_hebdo,
           seuil_reussite := pyInt seuil_hebdo, statut := statut }

/-- Loop body of `obtenir_performances_30j_par_archiviste` (attainment on the
daily average against the daily threshold, three status tiers). -/
def fiche30 (objectif : ℤ) (so : ℚ) (tr : List Traitement) (arch : String) :
    Option Arch30 :=
  let seuil_journalier : ℚ := qMul (objectif : ℚ) so
  let moy := ficheMoy tr arch
  do
    let (taux, statut) ←
      if seuil_journalier ≤ moy then do
        let q ← pyDiv moy (objectif : ℚ)
        pure (qMul q 100, "🟢 Objectif atteint")
      else do
        let q ← pyDiv moy seuil_journalier
        pure (qMul q 90,
          if 80 ≤ qMul q 90 then "🟡 Proche objectif" else "🔴 En retard")
    pure { archiviste := arch, total_dossiers := ficheTotal tr arch,
           jours_travailles := ficheJours tr arch,
           moyenne_jour := roundTo 1 moy,
           taux_objectif := roundTo 1 taux,
           seuil_journalier := pyInt seuil_journalier, statut := statut }

/-- Loop body of `obtenir_performances_annuelles_par_archiviste` (attainment
on the daily average, four status tiers, year-coverage ratio). -/
def ficheAnnuelle (objectif : ℤ) (so : ℚ) (annee : ℕ) (tr : List Traitement)
    (arch : String) : Option ArchAnnuel :=
  let seuil_journalier : ℚ := qMul (objectif : ℚ) so
  let moy := ficheMoy tr arch
  do
    let (taux, statut) ←
      if seuil_journalier ≤ moy then do
        let q ← pyDiv moy (objectif : ℚ)
        pure (qMul q 100, "🟢 Excellent")
      else do
        let q ← pyDiv moy seuil_journalier
        pure (qMul q 90,
          if 80 ≤ qMul q 90 then "🟡 Correct"
          else if 60 ≤ qMul q 90 then "🟠 Moyen" else "🔴 Insuffisant")
    let ja := joursOuvresAnnee annee
    pure { archiviste := arch, total_dossiers := ficheTotal tr arch,
           jours_travailles := ficheJours tr arch,
           moyenne_jour := roundTo 1 moy,
           taux_objectif := roundTo 1 taux,
           couverture_annee :=
             roundTo 1 (if 0 < ja
               then qMul (qDiv (ficheJours tr arch : ℚ) (ja : ℚ)) 100 else 0),
           seuil_journalier := pyInt seuil_journalier, statut := statut,
           annee := annee }

/-! ## The statistics engine -/

/-- `StatisticsCalculator.calculer_kpis_globaux`. -/
def calculer_kpis_globaux (db : DB) : Kpis × DB :=
  let (tr, db1) := obtenir_traitements db none none
  let (stock, db2) := lire_stock db1
  if tr = [] then
    ({ stock_initial := stock, dossiers_traites := 0,
       stock_restant := stock, pourcentage_traite := 0 }, db2)
  else
    let total := sommeDossiers tr
    ({ stock_initial := stock, dossiers_traites := total,
       stock_restant := max 0 (stock - (total : ℤ)),
       pourcentage_traite :=
         roundTo 2 (if 0 < stock
           then qMul (qDiv (total : ℚ) (stock : ℚ)) 100 else 0) },
     db2)

/-- `StatisticsCalculator.calculer_performances_journalieres` for the
reference day `dref` (a day ordinal). -/
def calculer_performances_journalieres (db : DB) (dref : ℕ) :
    Option PerfJour × DB :=
  let (tr, db1) := obtenir_traitements db (some (isoOfOrd dref)) (some (isoOfOrd dref))
  let (objectif, db2) := lire_objectif db1
  let (so, db3) := lire_seuil db2
  let seuil_reussite : ℚ := qMul (objectif : ℚ) so
  if tr = [] then
    (some { date := dref, dossiers_traites := 0, objectif := objectif,
            seuil_reussite := pyInt seuil_reussite, taux_realisation := 0,
            objectif_atteint := false, ecart := -pyInt seuil_reussite }, db3)
  else
    let total := sommeDossiers tr
    (do
      let (taux, att) ←
        if seuil_reussite ≤ (total : ℚ) then do
          let q ← pyDiv (total : ℚ) (objectif : ℚ)
          pure (qMul q 100, true)
        else do
          let q ← pyDiv (total : ℚ) seuil_reussite
          pure (qMul q 90, false)
      pure { date := dref, dossiers_traites := total, objectif := objectif,
             seuil_reussite := pyInt seuil_reussite,
             taux_realisation := roundTo 2 taux, objectif_atteint := att,
             ecart := pyInt (qSub (total : ℚ) seuil_reussite) },
     db3)

/-- Monday of the week of day ordinal `dref`
(`date_ref - timedelta(days=date_ref.weekday())`). -/
def debutSemaine (dref : ℕ) : ℕ := dref - dref % 7

/-- `StatisticsCalculator.calculer_performances_hebdomadaires`. -/
def calculer_performances_hebdomadaires (db : DB) (dref : ℕ) :
    Option PerfHebdo × DB :=
  let debut := debutSemaine dref
  let fin := debut + 6
  let (tr, db1) := obtenir_traitements db (some (isoOfOrd debut)) (some (isoOfOrd fin))
  let (objectif, db2) := lire_objectif db1
  let (so, db3) := lire_seuil db2
  let objectif_hebdo := objectif * 5
  let seuil_hebdo : ℚ := qMul (objectif_hebdo : ℚ) so
  if tr = [] then
    (some { semaine := semaineLabel debut fin, dossiers_traites := 0,
            objectif := objectif_hebdo, seuil_reussite := pyInt seuil_hebdo,
            taux_realisation := 0, objectif_atteint := false }, db3)
  else
    let total := sommeDossiers tr
    (do
      let (taux, att) ←
        if seuil_hebdo ≤ (total : ℚ) then do
          let q ← pyDiv (total : ℚ) (objectif_hebdo : ℚ)
          pure (qMul q 100, true)
        else do
          let q ← pyDiv (total : ℚ) seuil_hebdo
          pure (qMul q 90, false)
      pure { semaine := semaineLabel debut fin, dossiers_traites := total,
             objectif := objectif_hebdo, seuil_reussite := pyInt seuil_hebdo,
             taux_realisation := roundTo 2 taux, objectif_atteint := att },
     db3)

/-- `StatisticsCalculator.obtenir_performances_hebdo_par_archiviste`. -/
def obtenir_performances_hebdo_par_archiviste (db : DB) (dref : ℕ) :
    Option (List ArchHebdo) × DB :=
  let debut := debutSemaine dref
  let fin := debut + 6
  let (tr, db1) := obtenir_traitements db (some (isoOfOrd debut)) (some (isoOfOrd fin))
  if tr = [] then (some [], db1)
  else
    let (objectif, db2) := lire_objectif db1
    let (so, db3) := lire_seuil db2
    ((collecte (ficheHebdo objectif so tr)
        (firstDedup (tr.map (fun t => t.archiviste)))).map
      (sortD (fun a b => decide (b.taux_hebdo ≤ a.taux_hebdo))), db3)

/-- `StatisticsCalculator.obtenir_performances_30j_par_archiviste` (the
Python code takes `date.today()`; here `today` is explicit).  Note: this
variant does NOT sort its result. -/
def obtenir_performances_30j_par_archiviste (db : DB) (today : ℕ) :
    Option (List Arch30) × DB :=
  let (tr, db1) := obtenir_traitements db (some (isoOfOrd (today - 30)))
      (some (isoOfOrd today))
  if tr = [] then (some [], db1)
  else
    let (objectif, db2) := lire_objectif db1
    let (so, db3) := lire_seuil db2
    (collecte (fiche30 objectif so tr)
       (firstDedup (tr.map (fun t => t.archiviste))), db3)

/-- `StatisticsCalculator.obtenir_performances_annuelles_par_archiviste`. -/
def obtenir_performances_annuelles_par_archiviste (db : DB) (annee : ℕ) :
    Option (List ArchAnnuel) × DB :=
  let (tr, db1) := obtenir_traitements db (some (isoYMD annee 1 1))
      (some (isoYMD annee 12 31))
  if tr = [] then (some [], db1)
  else
    let (objectif, db2) := lire_objectif db1
    let (so, db3) := lire_seuil db2
    ((collecte (ficheAnnuelle objectif so annee tr)
        (firstDedup (tr.map (fun t => t.archiviste)))).map
      (sortD (fun a b => decide (b.taux_objectif ≤ a.taux_objectif))), db3)

/-! ## Abbreviations used by the specification theorems -/

/-- The daily target as a rational. -/
def objQ (db : DB) : ℚ := (db.parametres.objectif_journalier : ℚ)

/-- `seuil_reussite`: daily target × threshold fraction. -/
def seuilJourQ (db : DB) : ℚ := objQ db * db.parametres.seuil_objectif

/-- `seuil_hebdo`: weekly target (5 working days) × threshold fraction. -/
def seuilSemQ (db : DB) : ℚ :=
  ((db.parametres.objectif_journalier * 5 : ℤ) : ℚ) * db.parametres.seuil_objectif

/-- The rows fetched by the daily computation for day `dref`. -/
def traitementsJour (db : DB) (dref : ℕ) : List Traitement :=
  (obtenir_traitements db (some (isoOfOrd dref)) (some (isoOfOrd dref))).1

/-- Total processed on day `dref`. -/
def totalJour (db : DB) (dref : ℕ) : ℕ := sommeDossiers (traitementsJour db dref)

/-- The rows fetched by the weekly computations (Monday through Sunday of the
week of `dref`). -/
def traitementsSemaine (db : DB) (dref : ℕ) : List Traitement :=
  (obtenir_traitements db (some (isoOfOrd (debutSemaine dref)))
    (some (isoOfOrd (debutSemaine dref + 6)))).1

/-- Total processed during the week of `dref`. -/
def totalSemaine (db : DB) (dref : ℕ) : ℕ :=
  sommeDossiers (traitementsSemaine db dref)

/-- The rows fetched by the 30-day computation ending at `today`. -/
def traitements30 (db : DB) (today : ℕ) : List Traitement :=
  (obtenir_traitements db (some (isoOfOrd (today - 30))) (some (isoOfOrd today))).1

/-- The rows fetched by the annual computation for year `annee`. -/
def traitementsAnnee (db : DB) (annee : ℕ) : List Traitement :=
  (obtenir_traitements db (some (isoYMD annee 1 1)) (some (isoYMD annee 12 31))).1

/-- All rows (no date filter), as fetched by the KPI computation. -/
def traitementsTous (db : DB) : List Traitement :=
  (obtenir_traitements db none none).1

/-- Grand total of processed records over the whole history. -/
def totalGlobal (db : DB) : ℕ := sommeDossiers (traitementsTous db)

/-- Concrete store used by the C7 witness: one entry of exactly 180
(= 200 × 0.9) on Monday 2025-10-06. -/
def dbC7 : DB := ⟨[⟨"2025-10-06", "A", 180⟩], ⟨150000, 200, Rat.divInt 9 10⟩⟩

/-- Concrete store used by the C1 witness: one entry of 220 (above the
target 200) on Monday 2025-10-06. -/
def dbC1 : DB := ⟨[⟨"2025-10-06", "A", 220⟩], ⟨150000, 200, Rat.divInt 9 10⟩⟩

/-! ## Lemmas and claim theorems -/

theorem qMul_eq (a b : ℚ) : qMul a b = a * b := by
  rw [qMul, Rat.divInt_eq_div]
  push_cast
  rw [← div_mul_div_comm, Rat.num_div_den, Rat.num_div_den]

theorem qSub_eq (a b : ℚ) : qSub a b = a - b := by
  rw [qSub, Rat.divInt_eq_div]
  push_cast
  conv_rhs => rw [← Rat.num_div_den a, ← Rat.num_div_den b]
  rw [div_sub_div _ _ (by positivity : ((a.den : ℚ)) ≠ 0)
    (by positivity : ((b.den : ℚ)) ≠ 0)]
  ring_nf

theorem qDiv_eq (a b : ℚ) : qDiv a b = a / b := by
  rcases eq_or_ne b 0 with rfl | hb
  · simp [qDiv]
  · rw [qDiv, Rat.divInt_eq_div]
    push_cast
    conv_rhs => rw [← Rat.num_div_den a, ← Rat.num_div_den b]
    rw [div_div_eq_mul_div, div_mul_eq_mul_div, div_div]

/-! Sanity checks of the calendar embedding against known dates:
2024-01-01 and 2025-01-06 were Mondays, 2025-10-12 a Sunday, 2000-03-01 a
Wednesday; `fromOrd` inverts `toOrd` across month, year and leap boundaries. -/

theorem chk_weekday_mon_2024 : toOrd 2024 1 1 % 7 = 0 := by decide
theorem chk_weekday_mon_2025 : toOrd 2025 1 6 % 7 = 0 := by decide
theorem chk_weekday_sun_2025 : toOrd 2025 10 12 % 7 = 6 := by decide
theorem chk_weekday_wed_2000 : toOrd 2000 3 1 % 7 = 2 := by decide
theorem chk_fromOrd_1 : fromOrd (toOrd 2025 10 12) = (2025, 10, 12) := by decide
theorem chk_fromOrd_2 : fromOrd (toOrd 2024 2 29) = (2024, 2, 29) := by decide
theorem chk_fromOrd_3 : fromOrd (toOrd 2024 3 1) = (2024, 3, 1) := by decide
theorem chk_fromOrd_4 : fromOrd (toOrd 1999 12 31) = (1999, 12, 31) := by decide
theorem chk_fromOrd_5 : fromOrd (toOrd 2025 1 1) = (2025, 1, 1) := by decide
theorem chk_iso : isoOfOrd (toOrd 2025 10 6) = "2025-10-06" := by decide
theorem chk_parse_ok : parseDate "2025-10-06" = some (toOrd 2025 10 6) := by decide
theorem chk_parse_pad : parseDate "2025-1-6" = some (toOrd 2025 1 6) := by decide
theorem chk_parse_bad1 : parseDate "garbage" = none := by decide
theorem chk_parse_bad2 : parseDate "2025-02-30" = none := by decide
theorem chk_parse_bad3 : parseDate "2025-10-06x" = none := by decide

set_option maxRecDepth 4000 in
theorem chk_joursOuvresAnnee_2024 : joursOuvresAnnee 2024 = 262 := by decide
theorem chk_joursOuvres_dedup :
    joursOuvres ["2025-01-06", "2025-01-06", "junk", "2025-01-04"] = 1 := by decide

set_option maxRecDepth 2000 in
theorem chk_run_journalier :
    (calculer_performances_journalieres
        ⟨[⟨"2025-10-06", "A", 150⟩], ⟨150000, 200, Rat.divInt 9 10⟩⟩
        (toOrd 2025 10 6)).1 =
      some ⟨toOrd 2025 10 6, 150, 200, 180, 75, false, -30⟩ := by decide

/-! ## Generic lemmas about the loop combinators -/

theorem collecte_nil {α β : Type} (f : α → Option β) : collecte f [] = some [] := rfl

theorem collecte_cons {α β : Type} (f : α → Option β) (a : α) (l : List α) :
    collecte f (a :: l) =
      (f a).bind (fun b => (collecte f l).bind (fun bs => some (b :: bs))) := rfl

theorem collecte_mem {α β : Type} {f : α → Option β} :
    ∀ {xs : List α} {l : List β}, collecte f xs = some l → ∀ {b}, b ∈ l →
      ∃ a, a ∈ xs ∧ f a = some b := by
  intro xs
  induction xs with
  | nil =>
      intro l h b hb
      rw [collecte_nil, Option.some_inj] at h
      subst h
      simp at hb
  | cons a as ih =>
      intro l h b hb
      rw [collecte_cons] at h
      cases hfa : f a with
      | none => rw [hfa, Option.none_bind] at h; exact absurd h (by simp)
      | some v =>
          rw [hfa, Option.some_bind] at h
          cases hrest : collecte f as with
          | none => rw [hrest, Option.none_bind] at h; exact absurd h (by simp)
          | some vs =>
              rw [hrest, Option.some_bind, Option.some_inj] at h
              subst h
              rcases List.mem_cons.mp hb with rfl | hmem
              · exact ⟨a, by simp, hfa⟩
              · obtain ⟨x, hx, hfx⟩ := ih hrest hmem
                exact ⟨x, by simp [hx], hfx⟩

theorem collecte_isSome {α β : Type} {f : α → Option β} :
    ∀ {xs : List α}, (∀ a ∈ xs, (f a).isSome) → (collecte f xs).isSome := by
  intro xs
  induction xs with
  | nil => intro _; rw [collecte_nil]; rfl
  | cons a as ih =>
      intro h
      rw [collecte_cons]
      cases hfa : f a with
      | none => have := h a (by simp); rw [hfa] at this; simp at this
      | some v =>
          cases hrest : collecte f as with
          | none =>
              have := ih (fun x hx => h x (by simp [hx]))
              rw [hrest] at this
              simp at this
          | some vs => rfl

theorem collecte_map {α β : Type} {f : α → Option β} {g : β → α}
    (hg : ∀ a b, f a = some b → g b = a) :
    ∀ {xs : List α} {l : List β}, collecte f xs = some l → l.map g = xs := by
  intro xs
  induction xs with
  | nil =>
      intro l h
      rw [collecte_nil, Option.some_inj] at h
      subst h
      rfl
  | cons a as ih =>
      intro l h
      rw [collecte_cons] at h
      cases hfa : f a with
      | none => rw [hfa, Option.none_bind] at h; exact absurd h (by simp)
      | some v =>
          rw [hfa, Option.some_bind] at h
          cases hrest : collecte f as with
          | none => rw [hrest, Option.none_bind] at h; exact absurd h (by simp)
          | some vs =>
              rw [hrest, Option.some_bind, Option.some_inj] at h
              subst h
              simp [hg a v hfa, ih hrest]

theorem mem_insertD {α : Type} (le : α → α → Bool) (x : α) :
    ∀ (l : List α) (b : α), b ∈ insertD le x l ↔ b = x ∨ b ∈ l := by
  intro l
  induction l with
  | nil => intro b; simp [insertD]
  | cons y ys ih =>
      intro b
      by_cases h : le x y = true
      · simp [insertD, h]
      · simp only [insertD, if_neg h, List.mem_cons, ih]
        tauto

theorem mem_sortD {α : Type} (le : α → α → Bool) (l : List α) (b : α) :
    b ∈ sortD le l ↔ b ∈ l := by
  induction l with
  | nil => simp [sortD]
  | cons y ys ih =>
      show b ∈ insertD le y (sortD le ys) ↔ _
      rw [mem_insertD, ih]
      simp

theorem pairwise_insertD {α : Type} {le : α → α → Bool}
    (htot : ∀ a b, le a b = false → le b a = true)
    (htr : ∀ a b c, le a b = true → le b c = true → le a c = true)
    (x : α) : ∀ {l : List α}, List.Pairwise (fun a b => le a b = true) l →
      List.Pairwise (fun a b => le a b = true) (insertD le x l) := by
  intro l
  induction l with
  | nil => intro _; simp [insertD]
  | cons y ys ih =>
      intro h
      rcases List.pairwise_cons.mp h with ⟨hy, hys⟩
      by_cases hxy : le x y = true
      · rw [insertD, if_pos hxy]
        refine List.pairwise_cons.mpr ⟨?_, h⟩
        intro b hb
        rcases List.mem_cons.mp hb with rfl | hmem
        · exact hxy
        · exact htr x y b hxy (hy b hmem)
      · rw [insertD, if_neg hxy]
        refine List.pairwise_cons.mpr ⟨?_, ih hys⟩
        intro b hb
        rcases (mem_insertD le x ys b).mp hb with heq | hmem
        · subst heq; exact htot b y (Bool.eq_false_iff.mpr hxy)
        · exact hy b hmem

theorem pairwise_sortD {α : Type} {le : α → α → Bool}
    (htot : ∀ a b, le a b = false → le b a = true)
    (htr : ∀ a b c, le a b = true → le b c = true → le a c = true)
    (l : List α) : List.Pairwise (fun a b => le a b = true) (sortD le l) := by
  induction l with
  | nil => simp [sortD]
  | cons y ys ih => exact pairwise_insertD htot htr y ih

/-! ## Characterization of the per-archivist loop bodies -/

theorem ficheHebdo_att {o : ℤ} {so : ℚ} {tr : List Traitement} {a : String}
    (ho : ((o * 5 : ℤ) : ℚ) ≠ 0)
    (h : ((o * 5 : ℤ) : ℚ) * so ≤ (ficheTotal tr a : ℚ)) :
    ficheHebdo o so tr a =
      some ⟨a, ficheTotal tr a, ficheJours tr a, roundTo 1 (ficheMoy tr a),
        roundTo 1 ((ficheTotal tr a : ℚ) / ((o * 5 : ℤ) : ℚ) * 100), o * 5,
        pyInt (((o * 5 : ℤ) : ℚ) * so), "🟢 Objectif atteint"⟩ := by
  simp only [ficheHebdo, pyDiv, qMul_eq, qDiv_eq]
  rw [if_pos h, if_neg ho]
  rfl

theorem ficheHebdo_miss {o : ℤ} {so : ℚ} {tr : List Traitement} {a : String}
    (hs : ((o * 5 : ℤ) : ℚ) * so ≠ 0)
    (h : ¬ ((o * 5 : ℤ) : ℚ) * so ≤ (ficheTotal tr a : ℚ)) :
    ficheHebdo o so tr a =
      some ⟨a, ficheTotal tr a, ficheJours tr a, roundTo 1 (ficheMoy tr a),
        roundTo 1 ((ficheTotal tr a : ℚ) / (((o * 5 : ℤ) : ℚ) * so) * 90), o * 5,
        pyInt (((o * 5 : ℤ) : ℚ) * so),
        if 80 ≤ (ficheTotal tr a : ℚ) / (((o * 5 : ℤ) : ℚ) * so) * 90
        then "🟡 Proche objectif" else "🔴 En retard"⟩ := by
  simp only [ficheHebdo, pyDiv, qMul_eq, qDiv_eq]
  rw [if_neg h, if_neg hs]
  rfl

theorem fiche30_att {o : ℤ} {so : ℚ} {tr : List Traitement} {a : String}
    (ho : ((o : ℤ) : ℚ) ≠ 0) (h : ((o : ℤ) : ℚ) * so ≤ ficheMoy tr a) :
    fiche30 o so tr a =
      some ⟨a, ficheTotal tr a, ficheJours tr a, roundTo 1 (ficheMoy tr a),
        roundTo 1 (ficheMoy tr a / ((o : ℤ) : ℚ) * 100),
        pyInt (((o : ℤ) : ℚ) * so), "🟢 Objectif atteint"⟩ := by
  simp only [fiche30, pyDiv, qMul_eq, qDiv_eq]
  rw [if_pos h, if_neg ho]
  rfl

theorem fiche30_miss {o : ℤ} {so : ℚ} {tr : List Traitement} {a : String}
    (hs : ((o : ℤ) : ℚ) * so ≠ 0) (h : ¬ ((o : ℤ) : ℚ) * so ≤ ficheMoy tr a) :
    fiche30 o so tr a =
      some ⟨a, ficheTotal tr a, ficheJours tr a, roundTo 1 (ficheMoy tr a),
        roundTo 1 (ficheMoy tr a / (((o : ℤ) : ℚ) * so) * 90),
        pyInt (((o : ℤ) : ℚ) * so),
        if 80 ≤ ficheMoy tr a / (((o : ℤ) : ℚ) * so) * 90
        then "🟡 Proche objectif" else "🔴 En retard"⟩ := by
  simp only [fiche30, pyDiv, qMul_eq, qDiv_eq]
  rw [if_neg h, if_neg hs]
  rfl

theorem ficheAnnuelle_att {o : ℤ} {so : ℚ} {annee : ℕ} {tr : List Traitement}
    {a : String} (ho : ((o : ℤ) : ℚ) ≠ 0)
    (h : ((o : ℤ) : ℚ) * so ≤ ficheMoy tr a) :
    ficheAnnuelle o so annee tr a =
      some ⟨a, ficheTotal tr a, ficheJours tr a, roundTo 1 (ficheMoy tr a),
        roundTo 1 (ficheMoy tr a / ((o : ℤ) : ℚ) * 100),
        roundTo 1 (if 0 < joursOuvresAnnee annee
          then (ficheJours tr a : ℚ) / (joursOuvresAnnee annee : ℚ) * 100 else 0),
        pyInt (((o : ℤ) : ℚ) * so), "🟢 Excellent", annee⟩ := by
  simp only [ficheAnnuelle, pyDiv, qMul_eq, qDiv_eq]
  rw [if_pos h, if_neg ho]
  rfl

theorem ficheAnnuelle_miss {o : ℤ} {so : ℚ} {annee : ℕ} {tr : List Traitement}
    {a : String} (hs : ((o : ℤ) : ℚ) * so ≠ 0)
    (h : ¬ ((o : ℤ) : ℚ) * so ≤ ficheMoy tr a) :
    ficheAnnuelle o so annee tr a =
      some ⟨a, ficheTotal tr a, ficheJours tr a, roundTo 1 (ficheMoy tr a),
        roundTo 1 (ficheMoy tr a / (((o : ℤ) : ℚ) * so) * 90),
        roundTo 1 (if 0 < joursOuvresAnnee annee
          then (ficheJours tr a : ℚ) / (joursOuvresAnnee annee : ℚ) * 100 else 0),
        pyInt (((o : ℤ) : ℚ) * so),
        if 80 ≤ ficheMoy tr a / (((o : ℤ) : ℚ) * so) * 90 then "🟡 Correct"
        else if 60 ≤ ficheMoy tr a / (((o : ℤ) : ℚ) * so) * 90 then "🟠 Moyen"
        else "🔴 Insuffisant", annee⟩ := by
  simp only [ficheAnnuelle, pyDiv, qMul_eq, qDiv_eq]
  rw [if_neg h, if_neg hs]
  rfl

/-- The `archiviste` field of any record built by `ficheHebdo` is its key. -/
theorem ficheHebdo_archiviste {o : ℤ} {so : ℚ} {tr : List Traitement}
    {a : String} {r : ArchHebdo} (h : ficheHebdo o so tr a = some r) :
    r.archiviste = a := by
  simp only [ficheHebdo, pyDiv] at h
  split at h <;> split at h <;>
    first
      | exact Option.noConfusion h
      | rw [← Option.some_inj.mp h]

/-- The `archiviste` field of any record built by `fiche30` is its key. -/
theorem fiche30_archiviste {o : ℤ} {so : ℚ} {tr : List Traitement}
    {a : String} {r : Arch30} (h : fiche30 o so tr a = some r) :
    r.archiviste = a := by
  simp only [fiche30, pyDiv] at h
  split at h <;> split at h <;>
    first
      | exact Option.noConfusion h
      | rw [← Option.some_inj.mp h]

/-- The `archiviste` field of any record built by `ficheAnnuelle` is its key. -/
theorem ficheAnnuelle_archiviste {o : ℤ} {so : ℚ} {annee : ℕ}
    {tr : List Traitement} {a : String} {r : ArchAnnuel}
    (h : ficheAnnuelle o so annee tr a = some r) : r.archiviste = a := by
  simp only [ficheAnnuelle, pyDiv] at h
  split at h <;> split at h <;>
    first
      | exact Option.noConfusion h
      | rw [← Option.some_inj.mp h]

/-- The per-archivist daily average is never negative. -/
theorem ficheMoy_nonneg (tr : List Traitement) (a : String) :
    0 ≤ ficheMoy tr a := by
  rw [ficheMoy]
  split
  · rw [qDiv_eq]
    positivity
  · exact le_refl 0

theorem ficheHebdo_isSome {o : ℤ} {so : ℚ} (tr : List Traitement) (a : String)
    (ho : ((o * 5 : ℤ) : ℚ) ≠ 0) : (ficheHebdo o so tr a).isSome := by
  by_cases h : ((o * 5 : ℤ) : ℚ) * so ≤ (ficheTotal tr a : ℚ)
  · rw [ficheHebdo_att ho h]; rfl
  · have hs : ((o * 5 : ℤ) : ℚ) * so ≠ 0 := by
      have := (not_le.mp h)
      have h0 : (0 : ℚ) ≤ (ficheTotal tr a : ℚ) := by positivity
      exact ne_of_gt (lt_of_le_of_lt h0 this)
    rw [ficheHebdo_miss hs h]; rfl

theorem fiche30_isSome {o : ℤ} {so : ℚ} (tr : List Traitement) (a : String)
    (ho : ((o : ℤ) : ℚ) ≠ 0) : (fiche30 o so tr a).isSome := by
  by_cases h : ((o : ℤ) : ℚ) * so ≤ ficheMoy tr a
  · rw [fiche30_att ho h]; rfl
  · have hs : ((o : ℤ) : ℚ) * so ≠ 0 :=
      ne_of_gt (lt_of_le_of_lt (ficheMoy_nonneg tr a) (not_le.mp h))
    rw [fiche30_miss hs h]; rfl

theorem ficheAnnuelle_isSome {o : ℤ} {so : ℚ} {annee : ℕ}
    (tr : List Traitement) (a : String) (ho : ((o : ℤ) : ℚ) ≠ 0) :
    (ficheAnnuelle o so annee tr a).isSome := by
  by_cases h : ((o : ℤ) : ℚ) * so ≤ ficheMoy tr a
  · rw [ficheAnnuelle_att ho h]; rfl
  · have hs : ((o : ℤ) : ℚ) * so ≠ 0 :=
      ne_of_gt (lt_of_le_of_lt (ficheMoy_nonneg tr a) (not_le.mp h))
    rw [ficheAnnuelle_miss hs h]; rfl

/-! ## Unfolding lemmas for the engine functions -/

theorem journalier_empty (db : DB) (dref : ℕ)
    (he : traitementsJour db dref = []) :
    (calculer_performances_journalieres db dref).1 =
      some ⟨dref, 0, db.parametres.objectif_journalier, pyInt (seuilJourQ db),
        0, false, -pyInt (seuilJourQ db)⟩ := by
  rw [traitementsJour, obtenir_traitements] at he
  simp only [calculer_performances_journalieres, obtenir_traitements,
    lire_objectif, lire_seuil, seuilJourQ, objQ, qMul_eq]
  rw [if_pos he]

theorem journalier_att (db : DB) (dref : ℕ)
    (hne : traitementsJour db dref ≠ [])
    (h : seuilJourQ db ≤ (totalJour db dref : ℚ)) (ho : objQ db ≠ 0) :
    (calculer_performances_journalieres db dref).1 =
      some ⟨dref, totalJour db dref, db.parametres.objectif_journalier,
        pyInt (seuilJourQ db),
        roundTo 2 ((totalJour db dref : ℚ) / objQ db * 100), true,
        pyInt ((totalJour db dref : ℚ) - seuilJourQ db)⟩ := by
  rw [traitementsJour, obtenir_traitements] at hne
  rw [seuilJourQ, objQ] at h
  rw [objQ] at ho
  simp only [calculer_performances_journalieres, obtenir_traitements,
    lire_objectif, lire_seuil, pyDiv, qMul_eq, qDiv_eq, qSub_eq,
    seuilJourQ, objQ]
  rw [if_neg hne]
  rw [totalJour, traitementsJour, obtenir_traitements] at h ⊢
  rw [if_pos h, if_neg ho]
  rfl

theorem journalier_miss (db : DB) (dref : ℕ)
    (hne : traitementsJour db dref ≠ [])
    (h : ¬ seuilJourQ db ≤ (totalJour db dref : ℚ)) (hs : seuilJourQ db ≠ 0) :
    (calculer_performances_journalieres db dref).1 =
      some ⟨dref, totalJour db dref, db.parametres.objectif_journalier,
        pyInt (seuilJourQ db),
        roundTo 2 ((totalJour db dref : ℚ) / seuilJourQ db * 90), false,
        pyInt ((totalJour db dref : ℚ) - seuilJourQ db)⟩ := by
  rw [traitementsJour, obtenir_traitements] at hne
  rw [seuilJourQ, objQ] at h hs
  simp only [calculer_performances_journalieres, obtenir_traitements,
    lire_objectif, lire_seuil, pyDiv, qMul_eq, qDiv_eq, qSub_eq,
    seuilJourQ, objQ]
  rw [if_neg hne]
  rw [totalJour, traitementsJour, obtenir_traitements] at h ⊢
  rw [if_neg h, if_neg hs]
  rfl

theorem hebdo_empty (db : DB) (dref : ℕ)
    (he : traitementsSemaine db dref = []) :
    (calculer_performances_hebdomadaires db dref).1 =
      some ⟨semaineLabel (debutSemaine dref) (debutSemaine dref + 6), 0,
        db.parametres.objectif_journalier * 5, pyInt (seuilSemQ db), 0,
        false⟩ := by
  rw [traitementsSemaine, obtenir_traitements] at he
  simp only [calculer_performances_hebdomadaires, obtenir_traitements,
    lire_objectif, lire_seuil, seuilSemQ, qMul_eq]
  rw [if_pos he]

theorem hebdo_att (db : DB) (dref : ℕ)
    (hne : traitementsSemaine db dref ≠ [])
    (h : seuilSemQ db ≤ (totalSemaine db dref : ℚ))
    (ho : ((db.parametres.objectif_journalier * 5 : ℤ) : ℚ) ≠ 0) :
    (calculer_performances_hebdomadaires db dref).1 =
      some ⟨semaineLabel (debutSemaine dref) (debutSemaine dref + 6),
        totalSemaine db dref, db.parametres.objectif_journalier * 5,
        pyInt (seuilSemQ db),
        roundTo 2 ((totalSemaine db dref : ℚ) /
          ((db.parametres.objectif_journalier * 5 : ℤ) : ℚ) * 100),
        true⟩ := by
  rw [traitementsSemaine, obtenir_traitements] at hne
  rw [seuilSemQ] at h
  simp only [calculer_performances_hebdomadaires, obtenir_traitements,
    lire_objectif, lire_seuil, pyDiv, qMul_eq, qDiv_eq, seuilSemQ]
  rw [if_neg hne]
  rw [totalSemaine, traitementsSemaine, obtenir_traitements] at h ⊢
  rw [if_pos h, if_neg ho]
  rfl

theorem hebdo_miss (db : DB) (dref : ℕ)
    (hne : traitementsSemaine db dref ≠ [])
    (h : ¬ seuilSemQ db ≤ (totalSemaine db dref : ℚ))
    (hs : seuilSemQ db ≠ 0) :
    (calculer_performances_hebdomadaires db dref).1 =
      some ⟨semaineLabel (debutSemaine dref) (debutSemaine dref + 6),
        totalSemaine db dref, db.parametres.objectif_journalier * 5,
        pyInt (seuilSemQ db),
        roundTo 2 ((totalSemaine db dref : ℚ) / seuilSemQ db * 90),
        false⟩ := by
  rw [traitementsSemaine, obtenir_traitements] at hne
  rw [seuilSemQ] at h hs
  simp only [calculer_performances_hebdomadaires, obtenir_traitements,
    lire_objectif, lire_seuil, pyDiv, qMul_eq, qDiv_eq, seuilSemQ]
  rw [if_neg hne]
  rw [totalSemaine, traitementsSemaine, obtenir_traitements] at h ⊢
  rw [if_neg h, if_neg hs]
  rfl

theorem hebdoArch_empty (db : DB) (dref : ℕ)
    (he : traitementsSemaine db dref = []) :
    (obtenir_performances_hebdo_par_archiviste db dref).1 = some [] := by
  rw [traitementsSemaine, obtenir_traitements] at he
  simp only [obtenir_performances_hebdo_par_archiviste, obtenir_traitements,
    lire_objectif, lire_seuil]
  rw [if_pos he]

theorem hebdoArch_eq (db : DB) (dref : ℕ)
    (hne : traitementsSemaine db dref ≠ []) :
    (obtenir_performances_hebdo_par_archiviste db dref).1 =
      (collecte (ficheHebdo db.parametres.objectif_journalier
          db.parametres.seuil_objectif (traitementsSemaine db dref))
        (firstDedup ((traitementsSemaine db dref).map
          (fun t => t.archiviste)))).map
        (sortD (fun a b => decide (b.taux_hebdo ≤ a.taux_hebdo))) := by
  rw [traitementsSemaine, obtenir_traitements] at hne
  simp only [obtenir_performances_hebdo_par_archiviste, obtenir_traitements,
    lire_objectif, lire_seuil, traitementsSemaine]
  rw [if_neg hne]

theorem arch30_empty (db : DB) (today : ℕ)
    (he : traitements30 db today = []) :
    (obtenir_performances_30j_par_archiviste db today).1 = some [] := by
  rw [traitements30, obtenir_traitements] at he
  simp only [obtenir_performances_30j_par_archiviste, obtenir_traitements,
    lire_objectif, lire_seuil]
  rw [if_pos he]

theorem arch30_eq (db : DB) (today : ℕ)
    (hne : traitements30 db today ≠ []) :
    (obtenir_performances_30j_par_archiviste db today).1 =
      collecte (fiche30 db.parametres.objectif_journalier
          db.parametres.seuil_objectif (traitements30 db today))
        (firstDedup ((traitements30 db today).map (fun t => t.archiviste))) := by
  rw [traitements30, obtenir_traitements] at hne
  simp only [obtenir_performances_30j_par_archiviste, obtenir_traitements,
    lire_objectif, lire_seuil, traitements30]
  rw [if_neg hne]

theorem annuel_empty (db : DB) (annee : ℕ)
    (he : traitementsAnnee db annee = []) :
    (obtenir_performances_annuelles_par_archiviste db annee).1 = some [] := by
  rw [traitementsAnnee, obtenir_traitements] at he
  simp only [obtenir_performances_annuelles_par_archiviste,
    obtenir_traitements, lire_objectif, lire_seuil]
  rw [if_pos he]

theorem annuel_eq (db : DB) (annee : ℕ)
    (hne : traitementsAnnee db annee ≠ []) :
    (obtenir_performances_annuelles_par_archiviste db annee).1 =
      (collecte (ficheAnnuelle db.parametres.objectif_journalier
          db.parametres.seuil_objectif annee (traitementsAnnee db annee))
        (firstDedup ((traitementsAnnee db annee).map
          (fun t => t.archiviste)))).map
        (sortD (fun a b => decide (b.taux_objectif ≤ a.taux_objectif))) := by
  rw [traitementsAnnee, obtenir_traitements] at hne
  simp only [obtenir_performances_annuelles_par_archiviste,
    obtenir_traitements, lire_objectif, lire_seuil, traitementsAnnee]
  rw [if_neg hne]

/-! ## Claim theorems -/

/-- C9: every statistics computation (global KPIs, daily/weekly period
performance, weekly/30-day/annual per-archivist performance) returns the
record store exactly as it received it: the engine only runs `SELECT`-style
reads and performs no insert, update or delete. -/
theorem C9_engine_preserves_store (db : DB) (dref today annee : ℕ) :
    (calculer_kpis_globaux db).2 = db ∧
    (calculer_performances_journalieres db dref).2 = db ∧
    (calculer_performances_hebdomadaires db dref).2 = db ∧
    (obtenir_performances_hebdo_par_archiviste db dref).2 = db ∧
    (obtenir_performances_30j_par_archiviste db today).2 = db ∧
    (obtenir_performances_annuelles_par_archiviste db annee).2 = db := by
  refine ⟨?_, ?_, ?_, ?_, ?_, ?_⟩ <;>
    simp only [calculer_kpis_globaux, calculer_performances_journalieres,
      calculer_performances_hebdomadaires,
      obtenir_performances_hebdo_par_archiviste,
      obtenir_performances_30j_par_archiviste,
      obtenir_performances_annuelles_par_archiviste,
      obtenir_traitements, lire_stock, lire_objectif, lire_seuil] <;>
    split <;> rfl

/-- C4: for every scope with no matching entries, the period computations
return a zero-value result with `objectif_atteint = false` and
`ecart = -seuil_reussite` (daily), and the per-archivist variants return the
empty list; no error is raised (the result is always `some _`). -/
theorem C4_empty_scope (db : DB) (dref today annee : ℕ) :
    (traitementsJour db dref = [] →
      (calculer_performances_journalieres db dref).1 =
        some ⟨dref, 0, db.parametres.objectif_journalier,
          pyInt (seuilJourQ db), 0, false, -pyInt (seuilJourQ db)⟩) ∧
    (traitementsSemaine db dref = [] →
      (calculer_performances_hebdomadaires db dref).1 =
        some ⟨semaineLabel (debutSemaine dref) (debutSemaine dref + 6), 0,
          db.parametres.objectif_journalier * 5, pyInt (seuilSemQ db), 0,
          false⟩) ∧
    (traitementsSemaine db dref = [] →
      (obtenir_performances_hebdo_par_archiviste db dref).1 = some []) ∧
    (traitements30 db today = [] →
      (obtenir_performances_30j_par_archiviste db today).1 = some []) ∧
    (traitementsAnnee db annee = [] →
      (obtenir_performances_annuelles_par_archiviste db annee).1 = some []) :=
  ⟨journalier_empty db dref, hebdo_empty db dref, hebdoArch_empty db dref,
   arch30_empty db today, annuel_empty db annee⟩

/-- Witness for C4 at a concrete empty store. -/
theorem C4_empty_scope_witness :
    (calculer_performances_journalieres
        ⟨[], ⟨150000, 200, Rat.divInt 9 10⟩⟩ (toOrd 2025 10 8)).1 =
      some ⟨toOrd 2025 10 8, 0, 200,
        pyInt (seuilJourQ ⟨[], ⟨150000, 200, Rat.divInt 9 10⟩⟩), 0, false,
        -pyInt (seuilJourQ ⟨[], ⟨150000, 200, Rat.divInt 9 10⟩⟩)⟩ ∧
    (obtenir_performances_30j_par_archiviste
        ⟨[], ⟨150000, 200, Rat.divInt 9 10⟩⟩ (toOrd 2025 10 8)).1 = some [] :=
  ⟨(C4_empty_scope ⟨[], ⟨150000, 200, Rat.divInt 9 10⟩⟩ (toOrd 2025 10 8)
      (toOrd 2025 10 8) 2025).1 (by decide),
   (C4_empty_scope ⟨[], ⟨150000, 200, Rat.divInt 9 10⟩⟩ (toOrd 2025 10 8)
      (toOrd 2025 10 8) 2025).2.2.2.1 (by decide)⟩

theorem roundTo_zero (n : ℕ) : roundTo n 0 = 0 := by
  rw [roundTo, qMul_eq, zero_mul, qDiv_eq]
  have : halfEven 0 = 0 := by decide
  rw [this]
  simp

/-- C3: for every store whose initial stock is a (non-negative) count,
`calculer_kpis_globaux` reports the total over all entries, a remaining
stock clamped at zero (`max 0 (stock - total)`), the percent processed
rounded to 2 decimals with a zero-stock guard, and on an empty history the
untouched-stock record. -/
theorem C3_global_kpis (db : DB) (h : 0 ≤ db.parametres.stock_initial) :
    (calculer_kpis_globaux db).1.dossiers_traites = totalGlobal db ∧
    (calculer_kpis_globaux db).1.stock_restant =
      max 0 (db.parametres.stock_initial - (totalGlobal db : ℤ)) ∧
    (0 < db.parametres.stock_initial →
      (calculer_kpis_globaux db).1.pourcentage_traite =
        roundTo 2 ((totalGlobal db : ℚ) /
          (db.parametres.stock_initial : ℚ) * 100)) ∧
    (db.parametres.stock_initial = 0 →
      (calculer_kpis_globaux db).1.pourcentage_traite = 0) ∧
    (traitementsTous db = [] →
      (calculer_kpis_globaux db).1 =
        ⟨db.parametres.stock_initial, 0, db.parametres.stock_initial, 0⟩) := by
  rw [totalGlobal, traitementsTous]
  simp only [calculer_kpis_globaux, obtenir_traitements, lire_stock,
    qMul_eq, qDiv_eq]
  by_cases he : sortD dateDesc (db.traitements.filter (fun _ => true && true)) = []
  · rw [if_pos he, he]
    refine ⟨rfl, ?_, ?_, fun _ => rfl, fun _ => rfl⟩
    · show db.parametres.stock_initial =
        max 0 (db.parametres.stock_initial - ((sommeDossiers [] : ℕ) : ℤ))
      show db.parametres.stock_initial =
        max 0 (db.parametres.stock_initial - ((0 : ℕ) : ℤ))
      rw [Nat.cast_zero, sub_zero, max_eq_right h]
    · intro h0
      show (0 : ℚ) = roundTo 2 ((sommeDossiers [] : ℚ) / _ * 100)
      show (0 : ℚ) = roundTo 2 (((0 : ℕ) : ℚ) / _ * 100)
      rw [Nat.cast_zero, zero_div, zero_mul, roundTo_zero]
  · rw [if_neg he]
    refine ⟨rfl, rfl, ?_, ?_, fun hc => absurd hc he⟩
    · intro h0
      show roundTo 2 (if 0 < db.parametres.stock_initial then _ else 0) = _
      rw [if_pos h0]
    · intro h0
      show roundTo 2 (if 0 < db.parametres.stock_initial then _ else 0) = 0
      rw [h0]
      rw [if_neg (lt_irrefl 0), roundTo_zero]

/-- Witness for C3 at a concrete store with two entries. -/
theorem C3_global_kpis_witness :
    (calculer_kpis_globaux
        ⟨[⟨"2025-10-06", "A", 100⟩, ⟨"2025-10-07", "B", 50⟩],
         ⟨150000, 200, Rat.divInt 9 10⟩⟩).1.stock_restant =
      max 0 ((150000 : ℤ) -
        (totalGlobal ⟨[⟨"2025-10-06", "A", 100⟩, ⟨"2025-10-07", "B", 50⟩],
          ⟨150000, 200, Rat.divInt 9 10⟩⟩ : ℤ)) :=
  (C3_global_kpis
    ⟨[⟨"2025-10-06", "A", 100⟩, ⟨"2025-10-07", "B", 50⟩],
     ⟨150000, 200, Rat.divInt 9 10⟩⟩ (by decide)).2.1

theorem roundTo_90_1 : roundTo 1 (90 : ℚ) = 90 := by decide

theorem roundTo_90_2 : roundTo 2 (90 : ℚ) = 90 := by decide

theorem cast_obj_ne_zero {db : DB} (hobj : 0 < db.parametres.objectif_journalier) :
    objQ db ≠ 0 := by
  rw [objQ]
  exact_mod_cast hobj.ne'

theorem cast_obj5_ne_zero {db : DB}
    (hobj : 0 < db.parametres.objectif_journalier) :
    ((db.parametres.objectif_journalier * 5 : ℤ) : ℚ) ≠ 0 := by
  have : (0 : ℤ) < db.parametres.objectif_journalier * 5 := by positivity
  exact_mod_cast this.ne'

/-- Key arithmetic of C7: at total = target × 0.9, the attained-branch rate
formula yields exactly 90. -/
theorem rate_at_threshold {a : ℚ} (ha : a ≠ 0) :
    a * (9 / 10) / a * 100 = (90 : ℚ) := by
  field_simp
  ring

/-- C7: with the documented threshold fraction 0.9 and a positive daily
target, a scope whose total (or, for the averaged per-archivist views,
whose daily average) equals the attainment threshold exactly is reported at
a rate of exactly 90. -/
theorem C7_exact_threshold_rate_90 (db : DB) (dref today annee : ℕ)
    (hso : db.parametres.seuil_objectif = 9 / 10)
    (hobj : 0 < db.parametres.objectif_journalier) :
    (∀ r, (calculer_performances_journalieres db dref).1 = some r →
      (totalJour db dref : ℚ) = seuilJourQ db → r.taux_realisation = 90) ∧
    (∀ r, (calculer_performances_hebdomadaires db dref).1 = some r →
      (totalSemaine db dref : ℚ) = seuilSemQ db → r.taux_realisation = 90) ∧
    (∀ l r, (obtenir_performances_30j_par_archiviste db today).1 = some l →
      r ∈ l → ficheMoy (traitements30 db today) r.archiviste = seuilJourQ db →
      r.taux_objectif = 90) ∧
    (∀ l r,
      (obtenir_performances_annuelles_par_archiviste db annee).1 = some l →
      r ∈ l →
      ficheMoy (traitementsAnnee db annee) r.archiviste = seuilJourQ db →
      r.taux_objectif = 90) := by
  have ho : objQ db ≠ 0 := cast_obj_ne_zero hobj
  have hoQ : ((db.parametres.objectif_journalier : ℤ) : ℚ) ≠ 0 := by
    rw [objQ] at ho
    exact ho
  have ho5 : ((db.parametres.objectif_journalier * 5 : ℤ) : ℚ) ≠ 0 :=
    cast_obj5_ne_zero hobj
  refine ⟨?_, ?_, ?_, ?_⟩
  · intro r hr heq
    by_cases hne : traitementsJour db dref = []
    · rw [traitementsJour] at hne
      rw [totalJour, traitementsJour, hne] at heq
      have hs : seuilJourQ db = 0 := by rw [← heq]; rfl
      rw [seuilJourQ, hso] at hs
      exact absurd hs (mul_ne_zero ho (by norm_num))
    · rw [journalier_att db dref hne (le_of_eq heq.symm) ho] at hr
      rw [← Option.some_inj.mp hr]
      show roundTo 2 ((totalJour db dref : ℚ) / objQ db * 100) = 90
      rw [heq, seuilJourQ, hso, rate_at_threshold ho, roundTo_90_2]
  · intro r hr heq
    by_cases hne : traitementsSemaine db dref = []
    · rw [traitementsSemaine] at hne
      rw [totalSemaine, traitementsSemaine, hne] at heq
      have hs : seuilSemQ db = 0 := by rw [← heq]; rfl
      rw [seuilSemQ, hso] at hs
      exact absurd hs (mul_ne_zero ho5 (by norm_num))
    · rw [hebdo_att db dref hne (le_of_eq heq.symm) ho5] at hr
      rw [← Option.some_inj.mp hr]
      show roundTo 2 ((totalSemaine db dref : ℚ) /
        ((db.parametres.objectif_journalier * 5 : ℤ) : ℚ) * 100) = 90
      rw [heq, seuilSemQ, hso, rate_at_threshold ho5, roundTo_90_2]
  · intro l r hl hr heq
    by_cases hne : traitements30 db today = []
    · rw [arch30_empty db today hne] at hl
      rw [← Option.some_inj.mp hl] at hr
      simp at hr
    · rw [arch30_eq db today hne] at hl
      obtain ⟨a, _, hfa⟩ := collecte_mem hl hr
      have harch := fiche30_archiviste hfa
      rw [harch] at heq
      rw [seuilJourQ, objQ] at heq
      rw [fiche30_att hoQ (le_of_eq heq.symm)] at hfa
      rw [← Option.some_inj.mp hfa]
      show roundTo 1 (ficheMoy (traitements30 db today) a /
        ((db.parametres.objectif_journalier : ℤ) : ℚ) * 100) = 90
      rw [heq, hso, rate_at_threshold hoQ, roundTo_90_1]
  · intro l r hl hr heq
    by_cases hne : traitementsAnnee db annee = []
    · rw [annuel_empty db annee hne] at hl
      rw [← Option.some_inj.mp hl] at hr
      simp at hr
    · rw [annuel_eq db annee hne] at hl
      obtain ⟨l0, hl0, hmap⟩ := Option.map_eq_some'.mp hl
      have hr0 : r ∈ l0 := by
        rw [← hmap] at hr
        exact (mem_sortD _ l0 r).mp hr
      obtain ⟨a, _, hfa⟩ := collecte_mem hl0 hr0
      have harch := ficheAnnuelle_archiviste hfa
      rw [harch] at heq
      rw [seuilJourQ, objQ] at heq
      rw [ficheAnnuelle_att hoQ (le_of_eq heq.symm)] at hfa
      rw [← Option.some_inj.mp hfa]
      show roundTo 1 (ficheMoy (traitementsAnnee db annee) a /
        ((db.parametres.objectif_journalier : ℤ) : ℚ) * 100) = 90
      rw [heq, hso, rate_at_threshold hoQ, roundTo_90_1]

theorem dbC7_so : dbC7.parametres.seuil_objectif = 9 / 10 := by
  show Rat.divInt 9 10 = 9 / 10
  rw [Rat.divInt_eq_div]
  norm_num

theorem dbC7_total :
    (totalJour dbC7 (toOrd 2025 10 6) : ℚ) = seuilJourQ dbC7 := by
  have h1 : totalJour dbC7 (toOrd 2025 10 6) = 180 := by decide
  rw [h1, seuilJourQ, objQ]
  show ((180 : ℕ) : ℚ) = ((200 : ℤ) : ℚ) * dbC7.parametres.seuil_objectif
  rw [dbC7_so]
  norm_num

/-- Witness for C7: the concrete threshold-exact day is rated 90.0. -/
theorem C7_exact_threshold_rate_90_witness :
    ∃ r, (calculer_performances_journalieres dbC7 (toOrd 2025 10 6)).1 =
      some r ∧ r.taux_realisation = 90 :=
  ⟨⟨toOrd 2025 10 6, 180, 200, 180, 90, true, 0⟩, by decide,
   (C7_exact_threshold_rate_90 dbC7 (toOrd 2025 10 6) 0 2025 dbC7_so
     (by decide)).1 ⟨toOrd 2025 10 6, 180, 200, 180, 90, true, 0⟩ (by decide)
     dbC7_total⟩

/-- The weekly threshold is five times the daily one. -/
theorem seuilSemQ_eq (db : DB) : seuilSemQ db = 5 * seuilJourQ db := by
  rw [seuilSemQ, seuilJourQ, objQ]
  push_cast
  ring

/-- C1: the threshold-attainment rule.  In every scope with at least one
matching entry and strictly positive target and threshold: reaching the
threshold sets the attained flag and rates `total` against the full target
(a rate that may exceed 100); missing it clears the flag and rates `total`
against the threshold on the 0–90 scale; the gap is `total - seuil` (stored
truncated to an int, as Python's `int()` does).  The 30-day and annual
per-archivist views apply the same rule to the archivist's daily average
against the daily target and threshold. -/
theorem C1_attainment_rule (db : DB) (dref today annee : ℕ)
    (hobj : 0 < db.parametres.objectif_journalier)
    (hs : 0 < seuilJourQ db) :
    (traitementsJour db dref ≠ [] →
      ∃ r, (calculer_performances_journalieres db dref).1 = some r ∧
        (seuilJourQ db ≤ (totalJour db dref : ℚ) →
          r.objectif_atteint = true ∧ r.taux_realisation =
            roundTo 2 ((totalJour db dref : ℚ) / objQ db * 100)) ∧
        ((totalJour db dref : ℚ) < seuilJourQ db →
          r.objectif_atteint = false ∧ r.taux_realisation =
            roundTo 2 ((totalJour db dref : ℚ) / seuilJourQ db * 90)) ∧
        r.ecart = pyInt ((totalJour db dref : ℚ) - seuilJourQ db)) ∧
    (traitementsSemaine db dref ≠ [] →
      ∃ r, (calculer_performances_hebdomadaires db dref).1 = some r ∧
        (seuilSemQ db ≤ (totalSemaine db dref : ℚ) →
          r.objectif_atteint = true ∧ r.taux_realisation =
            roundTo 2 ((totalSemaine db dref : ℚ) /
              ((db.parametres.objectif_journalier * 5 : ℤ) : ℚ) * 100)) ∧
        ((totalSemaine db dref : ℚ) < seuilSemQ db →
          r.objectif_atteint = false ∧ r.taux_realisation =
            roundTo 2 ((totalSemaine db dref : ℚ) / seuilSemQ db * 90))) ∧
    (∀ l r, (obtenir_performances_30j_par_archiviste db today).1 = some l →
      r ∈ l →
      (seuilJourQ db ≤ ficheMoy (traitements30 db today) r.archiviste →
        r.statut = "🟢 Objectif atteint" ∧ r.taux_objectif =
          roundTo 1 (ficheMoy (traitements30 db today) r.archiviste /
            objQ db * 100)) ∧
      (ficheMoy (traitements30 db today) r.archiviste < seuilJourQ db →
        r.taux_objectif =
          roundTo 1 (ficheMoy (traitements30 db today) r.archiviste /
            seuilJourQ db * 90))) ∧
    (∀ l r,
      (obtenir_performances_annuelles_par_archiviste db annee).1 = some l →
      r ∈ l →
      (seuilJourQ db ≤ ficheMoy (traitementsAnnee db annee) r.archiviste →
        r.statut = "🟢 Excellent" ∧ r.taux_objectif =
          roundTo 1 (ficheMoy (traitementsAnnee db annee) r.archiviste /
            objQ db * 100)) ∧
      (ficheMoy (traitementsAnnee db annee) r.archiviste < seuilJourQ db →
        r.taux_objectif =
          roundTo 1 (ficheMoy (traitementsAnnee db annee) r.archiviste /
            seuilJourQ db * 90))) := by
  have ho : objQ db ≠ 0 := cast_obj_ne_zero hobj
  have hoQ : ((db.parametres.objectif_journalier : ℤ) : ℚ) ≠ 0 := by
    rw [objQ] at ho
    exact ho
  have ho5 : ((db.parametres.objectif_journalier * 5 : ℤ) : ℚ) ≠ 0 :=
    cast_obj5_ne_zero hobj
  have hs5 : 0 < seuilSemQ db := by
    rw [seuilSemQ_eq]
    positivity
  have hsJ : seuilJourQ db = ((db.parametres.objectif_journalier : ℤ) : ℚ) *
      db.parametres.seuil_objectif := by
    rw [seuilJourQ, objQ]
  refine ⟨?_, ?_, ?_, ?_⟩
  · intro hne
    by_cases hcase : seuilJourQ db ≤ (totalJour db dref : ℚ)
    · refine ⟨_, journalier_att db dref hne hcase ho, ?_, ?_, rfl⟩
      · intro _
        exact ⟨rfl, rfl⟩
      · intro hlt
        exact absurd hcase (not_le.mpr hlt)
    · refine ⟨_, journalier_miss db dref hne hcase hs.ne', ?_, ?_, rfl⟩
      · intro hle
        exact absurd hle hcase
      · intro _
        exact ⟨rfl, rfl⟩
  · intro hne
    by_cases hcase : seuilSemQ db ≤ (totalSemaine db dref : ℚ)
    · refine ⟨_, hebdo_att db dref hne hcase ho5, ?_, ?_⟩
      · intro _
        exact ⟨rfl, rfl⟩
      · intro hlt
        exact absurd hcase (not_le.mpr hlt)
    · refine ⟨_, hebdo_miss db dref hne hcase hs5.ne', ?_, ?_⟩
      · intro hle
        exact absurd hle hcase
      · intro _
        exact ⟨rfl, rfl⟩
  · intro l r hl hr
    by_cases hne : traitements30 db today = []
    · rw [arch30_empty db today hne] at hl
      rw [← Option.some_inj.mp hl] at hr
      simp at hr
    · rw [arch30_eq db today hne] at hl
      obtain ⟨a, _, hfa⟩ := collecte_mem hl hr
      have harch := fiche30_archiviste hfa
      subst harch
      constructor
      · intro hle
        rw [hsJ] at hle
        rw [fiche30_att hoQ hle] at hfa
        rw [← Option.some_inj.mp hfa]
        exact ⟨rfl, by rw [objQ]⟩
      · intro hlt
        have hmiss := not_le.mpr hlt
        rw [hsJ] at hmiss hs
        rw [fiche30_miss hs.ne' hmiss] at hfa
        rw [← Option.some_inj.mp hfa]
        rw [hsJ]
  · intro l r hl hr
    by_cases hne : traitementsAnnee db annee = []
    · rw [annuel_empty db annee hne] at hl
      rw [← Option.some_inj.mp hl] at hr
      simp at hr
    · rw [annuel_eq db annee hne] at hl
      obtain ⟨l0, hl0, hmap⟩ := Option.map_eq_some'.mp hl
      have hr0 : r ∈ l0 := by
        rw [← hmap] at hr
        exact (mem_sortD _ l0 r).mp hr
      obtain ⟨a, _, hfa⟩ := collecte_mem hl0 hr0
      have harch := ficheAnnuelle_archiviste hfa
      subst harch
      constructor
      · intro hle
        rw [hsJ] at hle
        rw [ficheAnnuelle_att hoQ hle] at hfa
        rw [← Option.some_inj.mp hfa]
        exact ⟨rfl, by rw [objQ]⟩
      · intro hlt
        have hmiss := not_le.mpr hlt
        rw [hsJ] at hmiss hs
        rw [ficheAnnuelle_miss hs.ne' hmiss] at hfa
        rw [← Option.some_inj.mp hfa]
        rw [hsJ]

theorem dbC1_seuil : seuilJourQ dbC1 = 180 := by
  rw [seuilJourQ, objQ]
  show ((200 : ℤ) : ℚ) * Rat.divInt 9 10 = 180
  rw [Rat.divInt_eq_div]
  norm_num

theorem dbC1_hs : 0 < seuilJourQ dbC1 := by
  rw [dbC1_seuil]
  decide

theorem dbC1_totalQ : (totalJour dbC1 (toOrd 2025 10 6) : ℚ) = 220 := by
  have h : totalJour dbC1 (toOrd 2025 10 6) = 220 := by decide
  rw [h]
  norm_num

theorem dbC1_att_premise :
    seuilJourQ dbC1 ≤ (totalJour dbC1 (toOrd 2025 10 6) : ℚ) := by
  rw [dbC1_seuil, dbC1_totalQ]
  decide

theorem dbC1_taux :
    roundTo 2 ((totalJour dbC1 (toOrd 2025 10 6) : ℚ) / objQ dbC1 * 100) =
      110 := by
  rw [dbC1_totalQ, objQ]
  show roundTo 2 ((220 : ℚ) / ((200 : ℤ) : ℚ) * 100) = 110
  have h : ((220 : ℚ) / ((200 : ℤ) : ℚ) * 100) = 110 := by norm_num
  rw [h]
  decide

/-- Witness for C1: the concrete over-target day is attained with a rate of
110, exceeding 100. -/
theorem C1_attainment_rule_witness :
    ∃ r, (calculer_performances_journalieres dbC1 (toOrd 2025 10 6)).1 =
      some r ∧ r.objectif_atteint = true ∧ r.taux_realisation = 110 ∧
      (100 : ℚ) < r.taux_realisation := by
  obtain ⟨r, hr, hatt, -, -⟩ :=
    (C1_attainment_rule dbC1 (toOrd 2025 10 6) 0 2025 (by decide) dbC1_hs).1
      (by decide)
  obtain ⟨ha, ht⟩ := hatt dbC1_att_premise
  have h110 : r.taux_realisation = 110 := by rw [ht, dbC1_taux]
  exact ⟨r, hr, ha, h110, by rw [h110]; decide⟩

theorem joursOuvresAux_toFinset :
    ∀ (l : List String) (acc : List ℕ),
      (joursOuvresAux l acc).toFinset =
        acc.toFinset ∪
          ((l.filterMap parseDate).filter
            (fun o => decide (o % 7 < 5))).toFinset := by
  intro l
  induction l with
  | nil => intro acc; simp [joursOuvresAux]
  | cons s rest ih =>
      intro acc
      cases hp : parseDate s with
      | none =>
          simp only [joursOuvresAux, hp]
          rw [ih]
          simp [List.filterMap_cons, hp]
      | some o =>
          by_cases hw : o % 7 < 5
          · simp only [joursOuvresAux, hp]
            rw [if_pos hw, ih]
            simp only [List.filterMap_cons, hp, List.filter_cons, hw]
            ext x
            simp [List.mem_insert_iff]
            tauto
          · simp only [joursOuvresAux, hp]
            rw [if_neg hw, ih]
            simp [List.filterMap_cons, hp, hw]

theorem joursOuvresAux_nodup :
    ∀ (l : List String) (acc : List ℕ), acc.Nodup →
      (joursOuvresAux l acc).Nodup := by
  intro l
  induction l with
  | nil => intro acc h; exact h
  | cons s rest ih =>
      intro acc h
      cases hp : parseDate s with
      | none => simp only [joursOuvresAux, hp]; exact ih acc h
      | some o =>
          by_cases hw : o % 7 < 5
          · simp only [joursOuvresAux, hp]
            rw [if_pos hw]
            exact ih _ (h.insert)
          · simp only [joursOuvresAux, hp]
            rw [if_neg hw]
            exact ih acc h

/-- The working-days counter equals the number of distinct parsed Mon–Fri
dates. -/
theorem joursOuvres_spec (dates : List String) :
    joursOuvres dates =
      (((dates.filterMap parseDate).filter
        (fun o => decide (o % 7 < 5))).toFinset).card := by
  rw [joursOuvres]
  rw [← List.toFinset_card_of_nodup (joursOuvresAux_nodup dates [] List.nodup_nil)]
  rw [joursOuvresAux_toFinset]
  simp

/-- C8: `_jours_ouvres` counts exactly the distinct calendar dates among its
input that parse as `%Y-%m-%d` and fall on Monday–Friday; a malformed string
anywhere in the input is skipped without affecting the count or raising, and
duplicated date strings are counted once. -/
theorem C8_working_days (dates : List String) :
    joursOuvres dates =
      (((dates.filterMap parseDate).filter
        (fun o => decide (o % 7 < 5))).toFinset).card ∧
    (∀ (l1 l2 : List String) (s : String), parseDate s = none →
      joursOuvres (l1 ++ s :: l2) = joursOuvres (l1 ++ l2)) ∧
    (∀ (s : String) (l : List String),
      joursOuvres (s :: s :: l) = joursOuvres (s :: l)) := by
  refine ⟨joursOuvres_spec dates, ?_, ?_⟩
  · intro l1 l2 s hp
    rw [joursOuvres_spec, joursOuvres_spec]
    simp [List.filterMap_append, List.filterMap_cons, hp]
  · intro s l
    rw [joursOuvres_spec, joursOuvres_spec]
    cases hp : parseDate s with
    | none => simp [List.filterMap_cons, hp]
    | some o =>
        by_cases hw : o % 7 < 5
        · simp [List.filterMap_cons, hp, hw]
        · simp [List.filterMap_cons, hp, hw]

/-- Witness for C8 on a concrete list: a duplicated Monday, a malformed
string and a Saturday together count as one working day. -/
theorem C8_working_days_witness :
    joursOuvres ["2025-01-06", "2025-01-06", "junk", "2025-01-04"] =
      ((((["2025-01-06", "2025-01-06", "junk", "2025-01-04"] :
        List String).filterMap parseDate).filter
        (fun o => decide (o % 7 < 5))).toFinset).card ∧
    joursOuvres ["2025-01-06", "junk", "2025-01-04"] =
      joursOuvres ["2025-01-06", "2025-01-04"] :=
  ⟨(C8_working_days ["2025-01-06", "2025-01-06", "junk", "2025-01-04"]).1,
   (C8_working_days []).2.1 ["2025-01-06"] ["2025-01-04"] "junk" (by decide)⟩

/-- Fields of the weekly record that are independent of the branch taken:
the total is the Monday–Sunday window total, the target is five daily
targets, the stored threshold is the truncated weekly threshold. -/
theorem hebdo_fields {db : DB} {dref : ℕ} {r : PerfHebdo}
    (hr : (calculer_performances_hebdomadaires db dref).1 = some r) :
    r.dossiers_traites = totalSemaine db dref ∧
    r.objectif = db.parametres.objectif_journalier * 5 ∧
    r.seuil_reussite = pyInt (seuilSemQ db) := by
  simp only [calculer_performances_hebdomadaires, obtenir_traitements,
    lire_objectif, lire_seuil, pyDiv] at hr
  rw [totalSemaine, traitementsSemaine, obtenir_traitements, seuilSemQ,
    ← qMul_eq]
  split at hr
  · rw [← Option.some_inj.mp hr]
    next h =>
      refine ⟨?_, rfl, rfl⟩
      show (0 : ℕ) = sommeDossiers _
      rw [h]
      rfl
  · split at hr <;> split at hr <;>
      first
        | exact Option.noConfusion hr
        | exact ⟨by rw [← Option.some_inj.mp hr], by rw [← Option.some_inj.mp hr],
            by rw [← Option.some_inj.mp hr]⟩

/-- Fields of a weekly per-archivist record that are independent of the
branch taken. -/
theorem ficheHebdo_fields {o : ℤ} {so : ℚ} {tr : List Traitement} {a : String}
    {r : ArchHebdo} (h : ficheHebdo o so tr a = some r) :
    r.total_dossiers = ficheTotal tr a ∧
    r.jours_travailles = ficheJours tr a ∧
    r.objectif_hebdo = o * 5 ∧
    r.seuil_reussite = pyInt (((o * 5 : ℤ) : ℚ) * so) := by
  simp only [ficheHebdo, pyDiv] at h
  rw [← qMul_eq]
  split at h <;> split at h <;>
    first
      | exact Option.noConfusion h
      | exact ⟨by rw [← Option.some_inj.mp h], by rw [← Option.some_inj.mp h],
          by rw [← Option.some_inj.mp h], by rw [← Option.some_inj.mp h]⟩

/-- C10: both weekly computations aggregate the entries dated from the
Monday of the reference date's week through the following Sunday inclusive
(`debutSemaine` is a Monday, `debutSemaine + 6` the following Sunday, and
the reference date lies between them), while the weekly target is always
`dailyTarget × 5` and its threshold fraction, regardless of the entries;
concretely, Saturday and Sunday entries are counted in the weekly total. -/
theorem C10_weekly_window (db : DB) (dref : ℕ) :
    debutSemaine dref % 7 = 0 ∧
    (debutSemaine dref + 6) % 7 = 6 ∧
    debutSemaine dref ≤ dref ∧ dref ≤ debutSemaine dref + 6 ∧
    traitementsSemaine db dref = sortD dateDesc (db.traitements.filter
      (fun t => sqlLe (isoOfOrd (debutSemaine dref)) t.date_traitement &&
        sqlLe t.date_traitement (isoOfOrd (debutSemaine dref + 6)))) ∧
    (∀ r, (calculer_performances_hebdomadaires db dref).1 = some r →
      r.dossiers_traites = totalSemaine db dref ∧
      r.objectif = db.parametres.objectif_journalier * 5 ∧
      r.seuil_reussite = pyInt (seuilSemQ db)) ∧
    (∀ l r, (obtenir_performances_hebdo_par_archiviste db dref).1 = some l →
      r ∈ l →
      r.total_dossiers = ficheTotal (traitementsSemaine db dref) r.archiviste ∧
      r.objectif_hebdo = db.parametres.objectif_journalier * 5 ∧
      r.seuil_reussite = pyInt (seuilSemQ db)) ∧
    (∃ r, (calculer_performances_hebdomadaires
        ⟨[⟨"2025-10-11", "A", 100⟩, ⟨"2025-10-12", "A", 50⟩,
          ⟨"2025-10-06", "A", 30⟩], ⟨150000, 200, Rat.divInt 9 10⟩⟩
        (toOrd 2025 10 8)).1 = some r ∧
      r.dossiers_traites = 180 ∧ r.objectif = 1000) := by
  refine ⟨?_, ?_, ?_, ?_, ?_, ?_, ?_, ?_⟩
  · rw [debutSemaine]; omega
  · rw [debutSemaine]; omega
  · rw [debutSemaine]; omega
  · rw [debutSemaine]; omega
  · rfl
  · intro r hr
    exact hebdo_fields hr
  · intro l r hl hr
    by_cases hne : traitementsSemaine db dref = []
    · rw [hebdoArch_empty db dref hne] at hl
      rw [← Option.some_inj.mp hl] at hr
      simp at hr
    · rw [hebdoArch_eq db dref hne] at hl
      obtain ⟨l0, hl0, hmap⟩ := Option.map_eq_some'.mp hl
      have hr0 : r ∈ l0 := by
        rw [← hmap] at hr
        exact (mem_sortD _ l0 r).mp hr
      obtain ⟨a, _, hfa⟩ := collecte_mem hl0 hr0
      have harch := ficheHebdo_archiviste hfa
      subst harch
      obtain ⟨h1, _, h3, h4⟩ := ficheHebdo_fields hfa
      exact ⟨h1, h3, by rw [h4, seuilSemQ]⟩
  · exact ⟨⟨semaineLabel (debutSemaine (toOrd 2025 10 8))
      (debutSemaine (toOrd 2025 10 8) + 6), 180, 1000, 900, 18, false⟩,
      by decide, rfl, rfl⟩

/-- Witness for C10 at the concrete store with Saturday/Sunday entries. -/
theorem C10_weekly_window_witness :
    (⟨semaineLabel (debutSemaine (toOrd 2025 10 8))
        (debutSemaine (toOrd 2025 10 8) + 6), 180, 1000, 900, 18, false⟩ :
      PerfHebdo).dossiers_traites =
      totalSemaine ⟨[⟨"2025-10-11", "A", 100⟩, ⟨"2025-10-12", "A", 50⟩,
        ⟨"2025-10-06", "A", 30⟩], ⟨150000, 200, Rat.divInt 9 10⟩⟩
        (toOrd 2025 10 8) ∧
    (⟨semaineLabel (debutSemaine (toOrd 2025 10 8))
        (debutSemaine (toOrd 2025 10 8) + 6), 180, 1000, 900, 18, false⟩ :
      PerfHebdo).objectif = (200 : ℤ) * 5 ∧
    (⟨semaineLabel (debutSemaine (toOrd 2025 10 8))
        (debutSemaine (toOrd 2025 10 8) + 6), 180, 1000, 900, 18, false⟩ :
      PerfHebdo).seuil_reussite =
      pyInt (seuilSemQ ⟨[⟨"2025-10-11", "A", 100⟩, ⟨"2025-10-12", "A", 50⟩,
        ⟨"2025-10-06", "A", 30⟩], ⟨150000, 200, Rat.divInt 9 10⟩⟩) :=
  (C10_weekly_window ⟨[⟨"2025-10-11", "A", 100⟩, ⟨"2025-10-12", "A", 50⟩,
      ⟨"2025-10-06", "A", 30⟩], ⟨150000, 200, Rat.divInt 9 10⟩⟩
    (toOrd 2025 10 8)).2.2.2.2.2.1 _ (by decide)

/-- C2 counterexample: with a stored daily target of 0 and one matching
entry, the daily computation executes `total / objectif` with a zero
denominator and raises (result `none`), instead of resolving to a rate of
0; and with a threshold fraction of 0 (zero threshold) and a positive
target, the rate is `(total/target)*100 = 50`, not 0. -/
theorem C2_counterexample :
    (calculer_performances_journalieres
        ⟨[⟨"2025-10-06", "A", 5⟩], ⟨150000, 0, Rat.divInt 9 10⟩⟩
        (toOrd 2025 10 6)).1 = none ∧
    (calculer_performances_journalieres
        ⟨[⟨"2025-10-06", "A", 100⟩], ⟨150000, 200, 0⟩⟩
        (toOrd 2025 10 6)).1 =
      some ⟨toOrd 2025 10 6, 100, 200, 0, 50, true, 100⟩ := by
  constructor
  · decide
  · decide

/-- Daily average of an archivist with no counted working days. -/
theorem ficheMoy_zero {tr : List Traitement} {a : String}
    (h : ficheJours tr a = 0) : ficheMoy tr a = 0 := by
  rw [ficheMoy, h]
  simp

/-- C2 (amended): with a strictly positive daily target every statistics
computation is total (`some _`, never a division fault), and in the 30-day
and annual per-archivist views an archivist with 0 counted working days is
reported with a daily average and a rate of exactly 0. -/
theorem C2_total_with_positive_target (db : DB) (dref today annee : ℕ)
    (hobj : 0 < db.parametres.objectif_journalier) :
    (calculer_performances_journalieres db dref).1.isSome ∧
    (calculer_performances_hebdomadaires db dref).1.isSome ∧
    (obtenir_performances_hebdo_par_archiviste db dref).1.isSome ∧
    (obtenir_performances_30j_par_archiviste db today).1.isSome ∧
    (obtenir_performances_annuelles_par_archiviste db annee).1.isSome ∧
    (∀ l r, (obtenir_performances_30j_par_archiviste db today).1 = some l →
      r ∈ l → ficheJours (traitements30 db today) r.archiviste = 0 →
      r.moyenne_jour = 0 ∧ r.taux_objectif = 0) ∧
    (∀ l r,
      (obtenir_performances_annuelles_par_archiviste db annee).1 = some l →
      r ∈ l → ficheJours (traitementsAnnee db annee) r.archiviste = 0 →
      r.moyenne_jour = 0 ∧ r.taux_objectif = 0) := by
  have ho : objQ db ≠ 0 := cast_obj_ne_zero hobj
  have hoQ : ((db.parametres.objectif_journalier : ℤ) : ℚ) ≠ 0 := by
    rw [objQ] at ho
    exact ho
  have ho5 : ((db.parametres.objectif_journalier * 5 : ℤ) : ℚ) ≠ 0 :=
    cast_obj5_ne_zero hobj
  refine ⟨?_, ?_, ?_, ?_, ?_, ?_, ?_⟩
  · by_cases hne : traitementsJour db dref = []
    · rw [journalier_empty db dref hne]; rfl
    · by_cases hcase : seuilJourQ db ≤ (totalJour db dref : ℚ)
      · rw [journalier_att db dref hne hcase ho]; rfl
      · have hs : seuilJourQ db ≠ 0 := by
          have h0 : (0 : ℚ) ≤ (totalJour db dref : ℚ) := by positivity
          exact ne_of_gt (lt_of_le_of_lt h0 (not_le.mp hcase))
        rw [journalier_miss db dref hne hcase hs]; rfl
  · by_cases hne : traitementsSemaine db dref = []
    · rw [hebdo_empty db dref hne]; rfl
    · by_cases hcase : seuilSemQ db ≤ (totalSemaine db dref : ℚ)
      · rw [hebdo_att db dref hne hcase ho5]; rfl
      · have hs : seuilSemQ db ≠ 0 := by
          have h0 : (0 : ℚ) ≤ (totalSemaine db dref : ℚ) := by positivity
          exact ne_of_gt (lt_of_le_of_lt h0 (not_le.mp hcase))
        rw [hebdo_miss db dref hne hcase hs]; rfl
  · by_cases hne : traitementsSemaine db dref = []
    · rw [hebdoArch_empty db dref hne]; rfl
    · rw [hebdoArch_eq db dref hne]
      obtain ⟨l0, hl0⟩ := Option.isSome_iff_exists.mp
        (collecte_isSome (fun a _ => ficheHebdo_isSome _ a ho5))
      rw [hl0]
      rfl
  · by_cases hne : traitements30 db today = []
    · rw [arch30_empty db today hne]; rfl
    · rw [arch30_eq db today hne]
      exact collecte_isSome (fun a _ => fiche30_isSome _ a hoQ)
  · by_cases hne : traitementsAnnee db annee = []
    · rw [annuel_empty db annee hne]; rfl
    · rw [annuel_eq db annee hne]
      obtain ⟨l0, hl0⟩ := Option.isSome_iff_exists.mp
        (collecte_isSome (fun a _ => ficheAnnuelle_isSome _ a hoQ))
      rw [hl0]
      rfl
  · intro l r hl hr hj
    by_cases hne : traitements30 db today = []
    · rw [arch30_empty db today hne] at hl
      rw [← Option.some_inj.mp hl] at hr
      simp at hr
    · rw [arch30_eq db today hne] at hl
      obtain ⟨a, _, hfa⟩ := collecte_mem hl hr
      have harch := fiche30_archiviste hfa
      subst harch
      have hmoy := ficheMoy_zero hj
      by_cases hcase : ((db.parametres.objectif_journalier : ℤ) : ℚ) *
          db.parametres.seuil_objectif ≤ ficheMoy (traitements30 db today)
            r.archiviste
      · rw [fiche30_att hoQ hcase] at hfa
        rw [← Option.some_inj.mp hfa]
        constructor
        · show roundTo 1 (ficheMoy (traitements30 db today) r.archiviste) = 0
          rw [hmoy, roundTo_zero]
        · show roundTo 1 (ficheMoy (traitements30 db today) r.archiviste /
            ((db.parametres.objectif_journalier : ℤ) : ℚ) * 100) = 0
          rw [hmoy, zero_div, zero_mul, roundTo_zero]
      · have hs : ((db.parametres.objectif_journalier : ℤ) : ℚ) *
            db.parametres.seuil_objectif ≠ 0 :=
          ne_of_gt (lt_of_le_of_lt (ficheMoy_nonneg _ _) (not_le.mp hcase))
        rw [fiche30_miss hs hcase] at hfa
        rw [← Option.some_inj.mp hfa]
        constructor
        · show roundTo 1 (ficheMoy (traitements30 db today) r.archiviste) = 0
          rw [hmoy, roundTo_zero]
        · show roundTo 1 (ficheMoy (traitements30 db today) r.archiviste /
            (((db.parametres.objectif_journalier : ℤ) : ℚ) *
              db.parametres.seuil_objectif) * 90) = 0
          rw [hmoy, zero_div, zero_mul, roundTo_zero]
  · intro l r hl hr hj
    by_cases hne : traitementsAnnee db annee = []
    · rw [annuel_empty db annee hne] at hl
      rw [← Option.some_inj.mp hl] at hr
      simp at hr
    · rw [annuel_eq db annee hne] at hl
      obtain ⟨l0, hl0, hmap⟩ := Option.map_eq_some'.mp hl
      have hr0 : r ∈ l0 := by
        rw [← hmap] at hr
        exact (mem_sortD _ l0 r).mp hr
      obtain ⟨a, _, hfa⟩ := collecte_mem hl0 hr0
      have harch := ficheAnnuelle_archiviste hfa
      subst harch
      have hmoy := ficheMoy_zero hj
      by_cases hcase : ((db.parametres.objectif_journalier : ℤ) : ℚ) *
          db.parametres.seuil_objectif ≤ ficheMoy (traitementsAnnee db annee)
            r.archiviste
      · rw [ficheAnnuelle_att hoQ hcase] at hfa
        rw [← Option.some_inj.mp hfa]
        constructor
        · show roundTo 1 (ficheMoy (traitementsAnnee db annee)
            r.archiviste) = 0
          rw [hmoy, roundTo_zero]
        · show roundTo 1 (ficheMoy (traitementsAnnee db annee) r.archiviste /
            ((db.parametres.objectif_journalier : ℤ) : ℚ) * 100) = 0
          rw [hmoy, zero_div, zero_mul, roundTo_zero]
      · have hs : ((db.parametres.objectif_journalier : ℤ) : ℚ) *
            db.parametres.seuil_objectif ≠ 0 :=
          ne_of_gt (lt_of_le_of_lt (ficheMoy_nonneg _ _) (not_le.mp hcase))
        rw [ficheAnnuelle_miss hs hcase] at hfa
        rw [← Option.some_inj.mp hfa]
        constructor
        · show roundTo 1 (ficheMoy (traitementsAnnee db annee)
            r.archiviste) = 0
          rw [hmoy, roundTo_zero]
        · show roundTo 1 (ficheMoy (traitementsAnnee db annee) r.archiviste /
            (((db.parametres.objectif_journalier : ℤ) : ℚ) *
              db.parametres.seuil_objectif) * 90) = 0
          rw [hmoy, zero_div, zero_mul, roundTo_zero]

/-- Witness for the amended C2: a Saturday-only archivist (0 working days)
gets average 0 and rate 0, and the computation stays total. -/
theorem C2_total_with_positive_target_witness :
    (obtenir_performances_30j_par_archiviste
        ⟨[⟨"2025-10-11", "A", 100⟩], ⟨150000, 200, Rat.divInt 9 10⟩⟩
        (toOrd 2025 10 12)).1.isSome ∧
    ((⟨"A", 100, 0, 0, 0, 180, "🔴 En retard"⟩ : Arch30).moyenne_jour = 0 ∧
     (⟨"A", 100, 0, 0, 0, 180, "🔴 En retard"⟩ : Arch30).taux_objectif = 0) :=
  ⟨(C2_total_with_positive_target
      ⟨[⟨"2025-10-11", "A", 100⟩], ⟨150000, 200, Rat.divInt 9 10⟩⟩ 0
      (toOrd 2025 10 12) 2025 (by decide)).2.2.2.1,
   (C2_total_with_positive_target
      ⟨[⟨"2025-10-11", "A", 100⟩], ⟨150000, 200, Rat.divInt 9 10⟩⟩ 0
      (toOrd 2025 10 12) 2025 (by decide)).2.2.2.2.2.1
      [⟨"A", 100, 0, 0, 0, 180, "🔴 En retard"⟩]
      ⟨"A", 100, 0, 0, 0, 180, "🔴 En retard"⟩ (by decide) (by decide)
      (by decide)⟩

set_option maxRecDepth 4000 in
/-- C5 counterexample: with the default configuration (target 200, fraction
0.9) an archivist averaging 190/day in 2025 is rated 95 — a rate in
[80, 100) — yet receives the TOP tier "🟢 Excellent", not the
"Correct/Near target" tier the claim assigns to rates below 100. -/
theorem C5_counterexample :
    ∃ l r, (obtenir_performances_annuelles_par_archiviste
        ⟨[⟨"2025-01-06", "A", 190⟩], ⟨150000, 200, Rat.divInt 9 10⟩⟩
        2025).1 = some l ∧ l = [r] ∧ r.taux_objectif = 95 ∧
      80 ≤ r.taux_objectif ∧ r.taux_objectif < 100 ∧
      r.statut = "🟢 Excellent" ∧ r.statut ≠ "🟡 Correct" :=
  ⟨[⟨"A", 190, 1, 190, 95, Rat.divInt 2 5, 180, "🟢 Excellent", 2025⟩],
   ⟨"A", 190, 1, 190, 95, Rat.divInt 2 5, 180, "🟢 Excellent", 2025⟩,
   by decide, rfl, by decide, by decide, by decide, by decide, by decide⟩

/-- C5 (amended): the top tier is assigned exactly when the attainment
condition holds (total or daily average ≥ reachThreshold — equivalently a
rate of thresholdFraction×100, i.e. 90 under the default 0.9, NOT 100);
within the non-attained branch the tiers are cut on the unrounded rescaled
rate: ≥ 80 → Correct/Near target, annual only 60–80 → Moderate, below →
Insufficient/Behind. -/
theorem C5_amended_status_tiers (db : DB) (dref today annee : ℕ) :
    (∀ l r,
      (obtenir_performances_annuelles_par_archiviste db annee).1 = some l →
      r ∈ l →
      (seuilJourQ db ≤ ficheMoy (traitementsAnnee db annee) r.archiviste →
        r.statut = "🟢 Excellent") ∧
      (¬ seuilJourQ db ≤ ficheMoy (traitementsAnnee db annee) r.archiviste →
        r.statut ≠ "🟢 Excellent" ∧
        (r.statut = "🟡 Correct" ↔ 80 ≤
          ficheMoy (traitementsAnnee db annee) r.archiviste /
            seuilJourQ db * 90) ∧
        (r.statut = "🟠 Moyen" ↔ 60 ≤
          ficheMoy (traitementsAnnee db annee) r.archiviste /
            seuilJourQ db * 90 ∧
          ficheMoy (traitementsAnnee db annee) r.archiviste /
            seuilJourQ db * 90 < 80) ∧
        (r.statut = "🔴 Insuffisant" ↔
          ficheMoy (traitementsAnnee db annee) r.archiviste /
            seuilJourQ db * 90 < 60))) ∧
    (∀ l r, (obtenir_performances_hebdo_par_archiviste db dref).1 = some l →
      r ∈ l →
      (seuilSemQ db ≤
          (ficheTotal (traitementsSemaine db dref) r.archiviste : ℚ) →
        r.statut = "🟢 Objectif atteint") ∧
      (¬ seuilSemQ db ≤
          (ficheTotal (traitementsSemaine db dref) r.archiviste : ℚ) →
        r.statut ≠ "🟢 Objectif atteint" ∧
        (r.statut = "🟡 Proche objectif" ↔ 80 ≤
          (ficheTotal (traitementsSemaine db dref) r.archiviste : ℚ) /
            seuilSemQ db * 90) ∧
        (r.statut = "🔴 En retard" ↔
          (ficheTotal (traitementsSemaine db dref) r.archiviste : ℚ) /
            seuilSemQ db * 90 < 80))) ∧
    (∀ l r, (obtenir_performances_30j_par_archiviste db today).1 = some l →
      r ∈ l →
      (seuilJourQ db ≤ ficheMoy (traitements30 db today) r.archiviste →
        r.statut = "🟢 Objectif atteint") ∧
      (¬ seuilJourQ db ≤ ficheMoy (traitements30 db today) r.archiviste →
        r.statut ≠ "🟢 Objectif atteint" ∧
        (r.statut = "🟡 Proche objectif" ↔ 80 ≤
          ficheMoy (traitements30 db today) r.archiviste /
            seuilJourQ db * 90) ∧
        (r.statut = "🔴 En retard" ↔
          ficheMoy (traitements30 db today) r.archiviste /
            seuilJourQ db * 90 < 80))) := by
  have hsJ : seuilJourQ db = ((db.parametres.objectif_journalier : ℤ) : ℚ) *
      db.parametres.seuil_objectif := by
    rw [seuilJourQ, objQ]
  have hsS : seuilSemQ db =
      ((db.parametres.objectif_journalier * 5 : ℤ) : ℚ) *
        db.parametres.seuil_objectif := by
    rw [seuilSemQ]
  refine ⟨?_, ?_, ?_⟩
  · intro l r hl hr
    by_cases hne : traitementsAnnee db annee = []
    · rw [annuel_empty db annee hne] at hl
      rw [← Option.some_inj.mp hl] at hr
      simp at hr
    · rw [annuel_eq db annee hne] at hl
      obtain ⟨l0, hl0, hmap⟩ := Option.map_eq_some'.mp hl
      have hr0 : r ∈ l0 := by
        rw [← hmap] at hr
        exact (mem_sortD _ l0 r).mp hr
      obtain ⟨a, _, hfa⟩ := collecte_mem hl0 hr0
      have harch := ficheAnnuelle_archiviste hfa
      subst harch
      by_cases hcase : seuilJourQ db ≤
          ficheMoy (traitementsAnnee db annee) r.archiviste
      · rw [hsJ] at hcase
        by_cases ho : ((db.parametres.objectif_journalier : ℤ) : ℚ) = 0
        · simp only [ficheAnnuelle, qMul_eq, pyDiv] at hfa
          rw [if_pos hcase, if_pos ho] at hfa
          exact Option.noConfusion hfa
        · rw [ficheAnnuelle_att ho hcase] at hfa
          rw [← Option.some_inj.mp hfa]
          rw [hsJ]
          exact ⟨fun _ => rfl, fun hc => absurd hcase hc⟩
      · have hmiss := hcase
        rw [hsJ] at hmiss
        have hs0 : ((db.parametres.objectif_journalier : ℤ) : ℚ) *
            db.parametres.seuil_objectif ≠ 0 :=
          ne_of_gt (lt_of_le_of_lt (ficheMoy_nonneg _ _) (not_le.mp hmiss))
        rw [ficheAnnuelle_miss hs0 hmiss] at hfa
        rw [← Option.some_inj.mp hfa]
        rw [hsJ]
        refine ⟨fun hc => absurd hc hcase, fun _ => ?_⟩
        set t := ficheMoy (traitementsAnnee db annee) r.archiviste /
          (((db.parametres.objectif_journalier : ℤ) : ℚ) *
            db.parametres.seuil_objectif) * 90 with ht
        by_cases h80 : 80 ≤ t
        · rw [if_pos h80]
          refine ⟨by simp, ?_, ?_, ?_⟩
          · exact ⟨fun _ => h80, fun _ => rfl⟩
          · exact ⟨fun hc => absurd hc (by simp), fun hc => absurd h80 (not_le.mpr hc.2)⟩
          · exact ⟨fun hc => absurd hc (by simp), fun hc => absurd h80 (not_le.mpr (by linarith))⟩
        · rw [if_neg h80]
          by_cases h60 : 60 ≤ t
          · rw [if_pos h60]
            refine ⟨by simp, ?_, ?_, ?_⟩
            · exact ⟨fun hc => absurd hc (by simp), fun hc => absurd hc h80⟩
            · exact ⟨fun _ => ⟨h60, not_le.mp h80⟩, fun _ => rfl⟩
            · exact ⟨fun hc => absurd hc (by simp), fun hc => absurd h60 (not_le.mpr hc)⟩
          · rw [if_neg h60]
            refine ⟨by simp, ?_, ?_, ?_⟩
            · exact ⟨fun hc => absurd hc (by simp), fun hc => absurd hc h80⟩
            · exact ⟨fun hc => absurd hc (by simp), fun hc => absurd hc.1 h60⟩
            · exact ⟨fun _ => not_le.mp h60, fun _ => rfl⟩
  · intro l r hl hr
    by_cases hne : traitementsSemaine db dref = []
    · rw [hebdoArch_empty db dref hne] at hl
      rw [← Option.some_inj.mp hl] at hr
      simp at hr
    · rw [hebdoArch_eq db dref hne] at hl
      obtain ⟨l0, hl0, hmap⟩ := Option.map_eq_some'.mp hl
      have hr0 : r ∈ l0 := by
        rw [← hmap] at hr
        exact (mem_sortD _ l0 r).mp hr
      obtain ⟨a, _, hfa⟩ := collecte_mem hl0 hr0
      have harch := ficheHebdo_archiviste hfa
      subst harch
      by_cases hcase : seuilSemQ db ≤
          (ficheTotal (traitementsSemaine db dref) r.archiviste : ℚ)
      · rw [hsS] at hcase
        by_cases ho : ((db.parametres.objectif_journalier * 5 : ℤ) : ℚ) = 0
        · simp only [ficheHebdo, qMul_eq, pyDiv] at hfa
          rw [if_pos hcase, if_pos ho] at hfa
          exact Option.noConfusion hfa
        · rw [ficheHebdo_att ho hcase] at hfa
          rw [← Option.some_inj.mp hfa]
          rw [hsS]
          exact ⟨fun _ => rfl, fun hc => absurd hcase hc⟩
      · have hmiss := hcase
        rw [hsS] at hmiss
        have hs0 : ((db.parametres.objectif_journalier * 5 : ℤ) : ℚ) *
            db.parametres.seuil_objectif ≠ 0 := by
          have h0 : (0 : ℚ) ≤
              (ficheTotal (traitementsSemaine db dref) r.archiviste : ℚ) := by
            positivity
          exact ne_of_gt (lt_of_le_of_lt h0 (not_le.mp hmiss))
        rw [ficheHebdo_miss hs0 hmiss] at hfa
        rw [← Option.some_inj.mp hfa]
        rw [hsS]
        refine ⟨fun hc => absurd hc hcase, fun _ => ?_⟩
        set t := (ficheTotal (traitementsSemaine db dref) r.archiviste : ℚ) /
          (((db.parametres.objectif_journalier * 5 : ℤ) : ℚ) *
            db.parametres.seuil_objectif) * 90 with ht
        by_cases h80 : 80 ≤ t
        · rw [if_pos h80]
          refine ⟨by simp, ?_, ?_⟩
          · exact ⟨fun _ => h80, fun _ => rfl⟩
          · exact ⟨fun hc => absurd hc (by simp), fun hc => absurd hc (not_lt.mpr h80)⟩
        · rw [if_neg h80]
          refine ⟨by simp, ?_, ?_⟩
          · exact ⟨fun hc => absurd hc (by simp), fun hc => absurd hc h80⟩
          · exact ⟨fun _ => not_le.mp h80, fun _ => rfl⟩
  · intro l r hl hr
    by_cases hne : traitements30 db today = []
    · rw [arch30_empty db today hne] at hl
      rw [← Option.some_inj.mp hl] at hr
      simp at hr
    · rw [arch30_eq db today hne] at hl
      obtain ⟨a, _, hfa⟩ := collecte_mem hl hr
      have harch := fiche30_archiviste hfa
      subst harch
      by_cases hcase : seuilJourQ db ≤
          ficheMoy (traitements30 db today) r.archiviste
      · rw [hsJ] at hcase
        by_cases ho : ((db.parametres.objectif_journalier : ℤ) : ℚ) = 0
        · simp only [fiche30, qMul_eq, pyDiv] at hfa
          rw [if_pos hcase, if_pos ho] at hfa
          exact Option.noConfusion hfa
        · rw [fiche30_att ho hcase] at hfa
          rw [← Option.some_inj.mp hfa]
          rw [hsJ]
          exact ⟨fun _ => rfl, fun hc => absurd hcase hc⟩
      · have hmiss := hcase
        rw [hsJ] at hmiss
        have hs0 : ((db.parametres.objectif_journalier : ℤ) : ℚ) *
            db.parametres.seuil_objectif ≠ 0 :=
          ne_of_gt (lt_of_le_of_lt (ficheMoy_nonneg _ _) (not_le.mp hmiss))
        rw [fiche30_miss hs0 hmiss] at hfa
        rw [← Option.some_inj.mp hfa]
        rw [hsJ]
        refine ⟨fun hc => absurd hc hcase, fun _ => ?_⟩
        set t := ficheMoy (traitements30 db today) r.archiviste /
          (((db.parametres.objectif_journalier : ℤ) : ℚ) *
            db.parametres.seuil_objectif) * 90 with ht
        by_cases h80 : 80 ≤ t
        · rw [if_pos h80]
          refine ⟨by simp, ?_, ?_⟩
          · exact ⟨fun _ => h80, fun _ => rfl⟩
          · exact ⟨fun hc => absurd hc (by simp), fun hc => absurd hc (not_lt.mpr h80)⟩
        · rw [if_neg h80]
          refine ⟨by simp, ?_, ?_⟩
          · exact ⟨fun hc => absurd hc (by simp), fun hc => absurd hc h80⟩
          · exact ⟨fun _ => not_le.mp h80, fun _ => rfl⟩

theorem dbC5_seuil : seuilJourQ
    ⟨[⟨"2025-01-06", "A", 190⟩], ⟨150000, 200, Rat.divInt 9 10⟩⟩ = 180 := by
  rw [seuilJourQ, objQ]
  show ((200 : ℤ) : ℚ) * Rat.divInt 9 10 = 180
  rw [Rat.divInt_eq_div]
  norm_num

theorem dbC5_premise : seuilJourQ
      ⟨[⟨"2025-01-06", "A", 190⟩], ⟨150000, 200, Rat.divInt 9 10⟩⟩ ≤
    ficheMoy (traitementsAnnee
      ⟨[⟨"2025-01-06", "A", 190⟩], ⟨150000, 200, Rat.divInt 9 10⟩⟩ 2025)
      "A" := by
  have h1 : ficheMoy (traitementsAnnee
      ⟨[⟨"2025-01-06", "A", 190⟩], ⟨150000, 200, Rat.divInt 9 10⟩⟩ 2025)
      "A" = 190 := by decide
  rw [h1, dbC5_seuil]
  decide

set_option maxRecDepth 4000 in
/-- Witness for the amended C5: the 95-rated archivist is top tier because
the attainment condition holds. -/
theorem C5_amended_status_tiers_witness :
    (⟨"A", 190, 1, 190, 95, Rat.divInt 2 5, 180, "🟢 Excellent", 2025⟩ :
      ArchAnnuel).statut = "🟢 Excellent" :=
  ((C5_amended_status_tiers
      ⟨[⟨"2025-01-06", "A", 190⟩], ⟨150000, 200, Rat.divInt 9 10⟩⟩ 0 0
      2025).1
    [⟨"A", 190, 1, 190, 95, Rat.divInt 2 5, 180, "🟢 Excellent", 2025⟩]
    ⟨"A", 190, 1, 190, 95, Rat.divInt 2 5, 180, "🟢 Excellent", 2025⟩
    (by decide) (by decide)).1 dbC5_premise

/-- C6 counterexample: the 30-day per-archivist list is NOT sorted by rate:
with archivist A (rate 50) appearing on a later date than archivist B
(rate 100), the function returns [A, B] — rates [50, 100], ascending. -/
theorem C6_counterexample :
    ∃ l, (obtenir_performances_30j_par_archiviste
        ⟨[⟨"2025-10-07", "A", 100⟩, ⟨"2025-10-06", "B", 200⟩],
         ⟨150000, 200, Rat.divInt 9 10⟩⟩ (toOrd 2025 10 10)).1 = some l ∧
      l.map (fun r => r.taux_objectif) = [50, 100] ∧
      ¬ List.Pairwise (fun a b : Arch30 => b.taux_objectif ≤ a.taux_objectif)
        l := by
  refine ⟨[⟨"A", 100, 1, 100, 50, 180, "🔴 En retard"⟩,
    ⟨"B", 200, 1, 200, 100, 180, "🟢 Objectif atteint"⟩],
    by decide, by decide, ?_⟩
  intro hp
  have h := (List.pairwise_cons.mp hp).1
    ⟨"B", 200, 1, 200, 100, 180, "🟢 Objectif atteint"⟩ (by simp)
  exact absurd h (by decide)

/-- C6 (amended): the weekly and annual per-archivist lists are sorted in
descending order of the rate field (a stable sort, hence deterministic);
the 30-day list is NOT sorted — it is returned in order of each archivist's
first appearance in the (date-descending) fetched entries, which is likewise
deterministic. -/
theorem C6_amended_sorting (db : DB) (dref today annee : ℕ) :
    (∀ l, (obtenir_performances_hebdo_par_archiviste db dref).1 = some l →
      List.Pairwise (fun a b : ArchHebdo => b.taux_hebdo ≤ a.taux_hebdo) l) ∧
    (∀ l,
      (obtenir_performances_annuelles_par_archiviste db annee).1 = some l →
      List.Pairwise (fun a b : ArchAnnuel =>
        b.taux_objectif ≤ a.taux_objectif) l) ∧
    (∀ l, (obtenir_performances_30j_par_archiviste db today).1 = some l →
      l.map (fun r => r.archiviste) =
        firstDedup ((traitements30 db today).map (fun t => t.archiviste))) := by
  refine ⟨?_, ?_, ?_⟩
  · intro l hl
    by_cases hne : traitementsSemaine db dref = []
    · rw [hebdoArch_empty db dref hne] at hl
      rw [← Option.some_inj.mp hl]
      exact List.Pairwise.nil
    · rw [hebdoArch_eq db dref hne] at hl
      obtain ⟨l0, _, hmap⟩ := Option.map_eq_some'.mp hl
      have hp := @pairwise_sortD ArchHebdo
        (fun a b => decide (b.taux_hebdo ≤ a.taux_hebdo))
        (fun a b h => decide_eq_true (le_of_not_le (of_decide_eq_false h)))
        (fun a b c hab hbc => decide_eq_true
          (le_trans (of_decide_eq_true hbc) (of_decide_eq_true hab)))
        l0
      rw [← hmap]
      exact hp.imp (fun h => of_decide_eq_true h)
  · intro l hl
    by_cases hne : traitementsAnnee db annee = []
    · rw [annuel_empty db annee hne] at hl
      rw [← Option.some_inj.mp hl]
      exact List.Pairwise.nil
    · rw [annuel_eq db annee hne] at hl
      obtain ⟨l0, _, hmap⟩ := Option.map_eq_some'.mp hl
      have hp := @pairwise_sortD ArchAnnuel
        (fun a b => decide (b.taux_objectif ≤ a.taux_objectif))
        (fun a b h => decide_eq_true (le_of_not_le (of_decide_eq_false h)))
        (fun a b c hab hbc => decide_eq_true
          (le_trans (of_decide_eq_true hbc) (of_decide_eq_true hab)))
        l0
      rw [← hmap]
      exact hp.imp (fun h => of_decide_eq_true h)
  · intro l hl
    by_cases hne : traitements30 db today = []
    · rw [arch30_empty db today hne] at hl
      rw [← Option.some_inj.mp hl, hne]
      rfl
    · rw [arch30_eq db today hne] at hl
      exact collecte_map (fun a b h => fiche30_archiviste h) hl

/-- Witness for the amended C6 on a concrete two-archivist week. -/
theorem C6_amended_sorting_witness :
    List.Pairwise (fun a b : ArchHebdo => b.taux_hebdo ≤ a.taux_hebdo)
      [⟨"B", 200, 1, 200, 20, 1000, 900, "🔴 En retard"⟩,
       ⟨"A", 100, 1, 100, 10, 1000, 900, "🔴 En retard"⟩] :=
  (C6_amended_sorting
    ⟨[⟨"2025-10-07", "A", 100⟩, ⟨"2025-10-06", "B", 200⟩],
     ⟨150000, 200, Rat.divInt 9 10⟩⟩ (toOrd 2025 10 8) 0 0).1 _ (by decide)
